import Mathlib

/-!
Shallow embedding of google/analytics-settings-database.

Source files modelled here:
* src/settings_downloader_function/main.py — the settings download pipeline
  (ga_settings_download, the UA get_ua_* retrievals, list_ga4_entities,
  create_gcs_json_file, save_to_bigquery).
* src/report_tables/property_overview/function/main.py — the downstream
  property-overview aggregation query (its LEFT JOIN clauses are transcribed
  as data).

Python dicts that are serialized with json.dump(item, w, default=str) are
modelled by association lists of a JSON-like Value type.  Proto enum fields
(IntEnum subclasses in the client library) are modelled by Value.enumv
carrying the raw integer code: Python's json module serializes an IntEnum as
its integer value (default= is only consulted for non-serializable objects).
Timestamp objects are not JSON serializable, so json.dump renders them via
default=str; they are modelled by Value.time.

Remote API calls can raise; the GA4 Admin API is therefore modelled with
Except-valued operations, and the traversal is written in the Except monad.
The source contains no try/except anywhere, which the embedding mirrors by
never catching errors.
-/

/-- A JSON-like value as produced by the Python dict construction in main.py.
enumv n models a proto enum member with integer code n (an int subclass),
time t models a Timestamp object (serialized through default=str). -/
inductive Value where
  | str (s : String)
  | int (i : Int)
  | bool (b : Bool)
  | enumv (n : Nat)
  | time (t : Nat)
  | obj (fields : List (String × Value))
  | arr (elems : List Value)

/-- A flattened record: a Python dict in insertion order. -/
abbrev Rec := List (String × Value)

/-- Dict lookup, Rec.lookup k mirrors r[k] on dicts whose keys are known. -/
def Rec.lookup (r : Rec) (k : String) : Option Value :=
  List.lookup k r

/-- String field access with a default, total stand-in for r[k] on dicts the
code itself constructed with a string at key k. -/
def Rec.getS (r : Rec) (k : String) : String :=
  match r.lookup k with
  | some (Value.str s) => s
  | _ => ""

/-- Array-of-dicts field access, total stand-in for iterating r[k]. -/
def Rec.getObjs (r : Rec) (k : String) : List Rec :=
  match r.lookup k with
  | some (Value.arr vs) =>
      vs.filterMap (fun v => match v with | Value.obj f => some f | _ => none)
  | _ => []

/-- Errors raised by remote calls (the embedding keeps only a message). -/
abbrev Err := String

/- ## GA4 Admin API resource objects (fields read by main.py) -/

/-- A property summary inside an account summary (admin API). -/
structure PropertySummary where
  property : String
  display_name : String
  deriving DecidableEq

/-- An account summary returned by list_account_summaries. -/
structure AccountSummary where
  name : String
  display_name : String
  account : String
  property_summaries : List PropertySummary
  deriving DecidableEq

/-- An account returned by list_accounts. -/
structure Ga4Account where
  name : String
  display_name : String
  create_time : Nat
  update_time : Nat
  region_code : String
  deleted : Bool
  deriving DecidableEq

/-- A property returned by list_properties.  industry_category and
service_level are proto enums, kept as raw integer codes. -/
structure Ga4Property where
  name : String
  create_time : Nat
  update_time : Nat
  parent : String
  display_name : String
  industry_category : Nat
  time_zone : String
  currency_code : String
  service_level : Nat
  delete_time : Nat
  expire_time : Nat
  deriving DecidableEq

/-- Data retention settings (event_data_retention is a proto enum). -/
structure DataRetentionSettings where
  name : String
  event_data_retention : Nat
  reset_user_data_on_new_activity : Bool
  deriving DecidableEq

/-- Google signals settings (state and consent are proto enums). -/
structure GoogleSignalsSettings where
  name : String
  state : Nat
  consent : Nat
  deriving DecidableEq

/-- An android app data stream. -/
structure AndroidAppDataStream where
  name : String
  firebase_app_id : String
  create_time : Nat
  update_time : Nat
  package_name : String
  display_name : String
  deriving DecidableEq

/-- An iOS app data stream. -/
structure IosAppDataStream where
  name : String
  firebase_app_id : String
  create_time : Nat
  update_time : Nat
  bundle_id : String
  display_name : String
  deriving DecidableEq

/-- A web data stream. -/
structure WebDataStream where
  name : String
  firebase_app_id : String
  create_time : Nat
  update_time : Nat
  measurement_id : String
  display_name : String
  default_uri : String
  deriving DecidableEq

/-- A measurement protocol secret. -/
structure MeasurementProtocolSecret where
  name : String
  display_name : String
  secret_value : String
  deriving DecidableEq

/-- A conversion event. -/
structure ConversionEvent where
  name : String
  event_name : String
  create_time : Nat
  deletable : Bool
  custom : Bool
  deriving DecidableEq

/-- A custom dimension (scope is a proto enum). -/
structure CustomDimension where
  name : String
  parameter_name : String
  display_name : String
  description : String
  scope : Nat
  disallow_ads_personalization : Bool
  deriving DecidableEq

/-- A custom metric (scope and measurement_unit are proto enums). -/
structure CustomMetric where
  name : String
  parameter_name : String
  display_name : String
  description : String
  scope : Nat
  measurement_unit : Nat
  deriving DecidableEq

/-- A Google Ads link. -/
structure GoogleAdsLink where
  name : String
  customer_id : String
  can_manage_clients : Bool
  ads_personalization_enabled : Bool
  create_time : Nat
  update_time : Nat
  creator_email_address : String
  deriving DecidableEq

/-- A Firebase link. -/
structure FirebaseLink where
  name : String
  project : String
  create_time : Nat
  deriving DecidableEq

/-- The GA4 Admin API surface used by list_ga4_entities.  Every operation may
raise, which Except models; list arguments are the parent / filter strings
the code passes. -/
structure AdminApi where
  list_account_summaries : Except Err (List AccountSummary)
  list_accounts : Except Err (List Ga4Account)
  list_properties : String → Except Err (List Ga4Property)
  get_data_retention_settings : String → Except Err DataRetentionSettings
  get_google_signals_settings : String → Except Err GoogleSignalsSettings
  list_android_app_data_streams : String → Except Err (List AndroidAppDataStream)
  list_ios_app_data_streams : String → Except Err (List IosAppDataStream)
  list_web_data_streams : String → Except Err (List WebDataStream)
  list_measurement_protocol_secrets : String → Except Err (List MeasurementProtocolSecret)
  list_conversion_events : String → Except Err (List ConversionEvent)
  list_custom_dimensions : String → Except Err (List CustomDimension)
  list_custom_metrics : String → Except Err (List CustomMetric)
  list_google_ads_links : String → Except Err (List GoogleAdsLink)
  list_firebase_links : String → Except Err (List FirebaseLink)

/- ## Dict builders, one per dict literal in list_ga4_entities -/

/-- p_dict (main.py lines 315-318). -/
def pDictRec (ps : PropertySummary) : Rec :=
  [("property", Value.str ps.property),
   ("display_name", Value.str ps.display_name)]

/-- a_dict (main.py lines 308-319). -/
def summaryRec (s : AccountSummary) : Rec :=
  [("name", Value.str s.name),
   ("display_name", Value.str s.display_name),
   ("account", Value.str s.account),
   ("property_summaries",
    Value.arr (s.property_summaries.map (fun ps => Value.obj (pDictRec ps))))]

/-- account_dict (main.py lines 323-330). -/
def accountRec (a : Ga4Account) : Rec :=
  [("name", Value.str a.name),
   ("display_name", Value.str a.display_name),
   ("create_time", Value.time a.create_time),
   ("update_time", Value.time a.update_time),
   ("region_code", Value.str a.region_code),
   ("deleted", Value.bool a.deleted)]

/-- prop_dict (main.py lines 343-369): note the data retention settings are
stored under the key data_sharing_settings, exactly as in the source. -/
def propertyRec (p : Ga4Property) (account : String)
    (drs : DataRetentionSettings) (gss : GoogleSignalsSettings) : Rec :=
  [("name", Value.str p.name),
   ("create_time", Value.time p.create_time),
   ("update_time", Value.time p.update_time),
   ("parent", Value.str p.parent),
   ("display_name", Value.str p.display_name),
   ("industry_category", Value.enumv p.industry_category),
   ("time_zone", Value.str p.time_zone),
   ("currency_code", Value.str p.currency_code),
   ("service_level", Value.enumv p.service_level),
   ("delete_time", Value.time p.delete_time),
   ("expire_time", Value.time p.expire_time),
   ("account", Value.str account),
   ("data_sharing_settings",
    Value.obj [("name", Value.str drs.name),
               ("event_data_retention", Value.enumv drs.event_data_retention),
               ("reset_user_data_on_new_activity",
                Value.bool drs.reset_user_data_on_new_activity)]),
   ("google_signals_settings",
    Value.obj [("name", Value.str gss.name),
               ("state", Value.enumv gss.state),
               ("consent", Value.enumv gss.consent)])]

/-- android_data_stream_dict (main.py lines 375-384). -/
def androidStreamRec (s : AndroidAppDataStream) (ps : PropertySummary) : Rec :=
  [("name", Value.str s.name),
   ("firebase_app_id", Value.str s.firebase_app_id),
   ("create_time", Value.time s.create_time),
   ("update_time", Value.time s.update_time),
   ("package_name", Value.str s.package_name),
   ("display_name", Value.str s.display_name),
   ("property", Value.str ps.property),
   ("property_display_name", Value.str ps.display_name)]

/-- ios_data_stream_dict (main.py lines 402-411). -/
def iosStreamRec (s : IosAppDataStream) (ps : PropertySummary) : Rec :=
  [("name", Value.str s.name),
   ("firebase_app_id", Value.str s.firebase_app_id),
   ("create_time", Value.time s.create_time),
   ("update_time", Value.time s.update_time),
   ("bundle_id", Value.str s.bundle_id),
   ("display_name", Value.str s.display_name),
   ("property", Value.str ps.property),
   ("property_display_name", Value.str ps.display_name)]

/-- web_data_stream_dict (main.py lines 432-468, commented parts omitted
as in the source). -/
def webStreamRec (s : WebDataStream) (ps : PropertySummary) : Rec :=
  [("name", Value.str s.name),
   ("firebase_app_id", Value.str s.firebase_app_id),
   ("create_time", Value.time s.create_time),
   ("update_time", Value.time s.update_time),
   ("measurement_id", Value.str s.measurement_id),
   ("display_name", Value.str s.display_name),
   ("default_uri", Value.str s.default_uri),
   ("property", Value.str ps.property),
   ("property_display_name", Value.str ps.display_name)]

/-- mps_dict (main.py lines 389-397 / 416-424 / 473-481); streamName is the
parent stream dict's name, tag the literal type string. -/
def mpsRec (m : MeasurementProtocolSecret) (streamName tag : String)
    (ps : PropertySummary) : Rec :=
  [("name", Value.str m.name),
   ("display_name", Value.str m.display_name),
   ("secret_value", Value.str m.secret_value),
   ("stream_name", Value.str streamName),
   ("type", Value.str tag),
   ("property", Value.str ps.property),
   ("property_display_name", Value.str ps.display_name)]

/-- event_dict (main.py lines 487-495). -/
def conversionEventRec (e : ConversionEvent) (ps : PropertySummary) : Rec :=
  [("name", Value.str e.name),
   ("event_name", Value.str e.event_name),
   ("create_time", Value.time e.create_time),
   ("deletable", Value.bool e.deletable),
   ("custom", Value.bool e.custom),
   ("property", Value.str ps.property),
   ("property_display_name", Value.str ps.display_name)]

/-- cd_dict (main.py lines 500-509). -/
def customDimensionRec (cd : CustomDimension) (ps : PropertySummary) : Rec :=
  [("name", Value.str cd.name),
   ("parameter_name", Value.str cd.parameter_name),
   ("display_name", Value.str cd.display_name),
   ("description", Value.str cd.description),
   ("scope", Value.enumv cd.scope),
   ("disallow_ads_personalization", Value.bool cd.disallow_ads_personalization),
   ("property", Value.str ps.property),
   ("property_display_name", Value.str ps.display_name)]

/-- cm_dict (main.py lines 514-523). -/
def customMetricRec (cm : CustomMetric) (ps : PropertySummary) : Rec :=
  [("name", Value.str cm.name),
   ("parameter_name", Value.str cm.parameter_name),
   ("display_name", Value.str cm.display_name),
   ("description", Value.str cm.description),
   ("scope", Value.enumv cm.scope),
   ("measurement_unit", Value.enumv cm.measurement_unit),
   ("property", Value.str ps.property),
   ("property_display_name", Value.str ps.display_name)]

/-- link_dict for Google Ads links (main.py lines 528-538). -/
def googleAdsLinkRec (l : GoogleAdsLink) (ps : PropertySummary) : Rec :=
  [("name", Value.str l.name),
   ("customer_id", Value.str l.customer_id),
   ("can_manage_clients", Value.bool l.can_manage_clients),
   ("ads_personalization_enabled", Value.bool l.ads_personalization_enabled),
   ("create_time", Value.time l.create_time),
   ("update_time", Value.time l.update_time),
   ("creator_email_address", Value.str l.creator_email_address),
   ("property", Value.str ps.property),
   ("property_display_name", Value.str ps.display_name)]

/-- link_dict for Firebase links (main.py lines 543-549). -/
def firebaseLinkRec (l : FirebaseLink) (ps : PropertySummary) : Rec :=
  [("name", Value.str l.name),
   ("project", Value.str l.project),
   ("create_time", Value.time l.create_time),
   ("property", Value.str ps.property),
   ("property_display_name", Value.str ps.display_name)]

/- ## The entities dictionary and the GA4 traversal -/

/-- The entities dictionary of list_ga4_entities (main.py lines 291-306), one
field per key, in source order. -/
structure Entities where
  summaries : List Rec := []
  accounts : List Rec := []
  properties : List Rec := []
  android_app_data_streams : List Rec := []
  measurement_protocol_secrets : List Rec := []
  conversion_events : List Rec := []
  custom_dimensions : List Rec := []
  custom_metrics : List Rec := []
  dv360_link_proposals : List Rec := []
  dv360_links : List Rec := []
  firebase_links : List Rec := []
  google_ads_links : List Rec := []
  ios_app_data_streams : List Rec := []
  web_data_streams : List Rec := []

/-- All collections empty, the state after main.py lines 291-306. -/
def Entities.empty : Entities := {}

/-- Pointwise concatenation: the effect of running one loop body's appends
after another on the same entities dictionary. -/
def Entities.app (a b : Entities) : Entities where
  summaries := a.summaries ++ b.summaries
  accounts := a.accounts ++ b.accounts
  properties := a.properties ++ b.properties
  android_app_data_streams := a.android_app_data_streams ++ b.android_app_data_streams
  measurement_protocol_secrets := a.measurement_protocol_secrets ++ b.measurement_protocol_secrets
  conversion_events := a.conversion_events ++ b.conversion_events
  custom_dimensions := a.custom_dimensions ++ b.custom_dimensions
  custom_metrics := a.custom_metrics ++ b.custom_metrics
  dv360_link_proposals := a.dv360_link_proposals ++ b.dv360_link_proposals
  dv360_links := a.dv360_links ++ b.dv360_links
  firebase_links := a.firebase_links ++ b.firebase_links
  google_ads_links := a.google_ads_links ++ b.google_ads_links
  ios_app_data_streams := a.ios_app_data_streams ++ b.ios_app_data_streams
  web_data_streams := a.web_data_streams ++ b.web_data_streams

/-- The android data stream loop (main.py lines 373-398): for each stream,
build its dict and list its measurement protocol secrets with the stream
dict's name as parent.  Returns (stream dicts, mps dicts). -/
def androidLoop (api : AdminApi) (ps : PropertySummary) :
    List AndroidAppDataStream → Except Err (List Rec × List Rec)
  | [] => pure ([], [])
  | s :: rest => do
    let sdict := androidStreamRec s ps
    let ms ← api.list_measurement_protocol_secrets (sdict.getS "name")
    let mdicts := ms.map (fun m => mpsRec m (sdict.getS "name") "android app" ps)
    let (sds, mds) ← androidLoop api ps rest
    pure (sdict :: sds, mdicts ++ mds)

/-- The iOS data stream loop (main.py lines 400-425). -/
def iosLoop (api : AdminApi) (ps : PropertySummary) :
    List IosAppDataStream → Except Err (List Rec × List Rec)
  | [] => pure ([], [])
  | s :: rest => do
    let sdict := iosStreamRec s ps
    let ms ← api.list_measurement_protocol_secrets (sdict.getS "name")
    let mdicts := ms.map (fun m => mpsRec m (sdict.getS "name") "ios app" ps)
    let (sds, mds) ← iosLoop api ps rest
    pure (sdict :: sds, mdicts ++ mds)

/-- The web data stream loop (main.py lines 427-483). -/
def webLoop (api : AdminApi) (ps : PropertySummary) :
    List WebDataStream → Except Err (List Rec × List Rec)
  | [] => pure ([], [])
  | s :: rest => do
    let sdict := webStreamRec s ps
    let ms ← api.list_measurement_protocol_secrets (sdict.getS "name")
    let mdicts := ms.map (fun m => mpsRec m (sdict.getS "name") "web" ps)
    let (sds, mds) ← webLoop api ps rest
    pure (sdict :: sds, mdicts ++ mds)

/-- The body of the property_summary loop (main.py lines 371-550): android
streams, then iOS streams, then web streams (each with nested measurement
protocol secret listings), then conversion events, custom dimensions, custom
metrics, Google Ads links and Firebase links.  Returns the delta this
iteration appends to the entities dictionary. -/
def processPropertySummary (api : AdminApi) (ps : PropertySummary) :
    Except Err Entities := do
  let androids ← api.list_android_app_data_streams ps.property
  let (adicts, amps) ← androidLoop api ps androids
  let ioses ← api.list_ios_app_data_streams ps.property
  let (idicts, imps) ← iosLoop api ps ioses
  let webs ← api.list_web_data_streams ps.property
  let (wdicts, wmps) ← webLoop api ps webs
  let events ← api.list_conversion_events ps.property
  let cds ← api.list_custom_dimensions ps.property
  let cms ← api.list_custom_metrics ps.property
  let adsLinks ← api.list_google_ads_links ps.property
  let fbLinks ← api.list_firebase_links ps.property
  pure { Entities.empty with
    android_app_data_streams := adicts
    ios_app_data_streams := idicts
    web_data_streams := wdicts
    measurement_protocol_secrets := amps ++ imps ++ wmps
    conversion_events := events.map (fun e => conversionEventRec e ps)
    custom_dimensions := cds.map (fun cd => customDimensionRec cd ps)
    custom_metrics := cms.map (fun cm => customMetricRec cm ps)
    google_ads_links := adsLinks.map (fun l => googleAdsLinkRec l ps)
    firebase_links := fbLinks.map (fun l => firebaseLinkRec l ps) }

/-- The properties loop (main.py lines 336-370): each property returned for
the account filter is enriched with its data retention settings and google
signals settings (the only 1:1 gets the source performs) and flattened. -/
def propertiesLoop (api : AdminApi) (account : String) :
    List Ga4Property → Except Err (List Rec)
  | [] => pure []
  | p :: rest => do
    let drs ← api.get_data_retention_settings (p.name ++ "/dataRetentionSettings")
    let gss ← api.get_google_signals_settings (p.name ++ "/googleSignalsSettings")
    let ds ← propertiesLoop api account rest
    pure (propertyRec p account drs gss :: ds)

/-- The property_summary loop of one account summary (main.py lines
371-550), concatenating the per-summary deltas in order. -/
def psLoop (api : AdminApi) : List PropertySummary → Except Err Entities
  | [] => pure Entities.empty
  | ps :: rest => do
    let d ← processPropertySummary api ps
    let drest ← psLoop api rest
    pure (Entities.app d drest)

/-- The body of the account_summary loop (main.py lines 333-595): list the
account's properties with filter parent:account, enrich and flatten each,
then process each property summary of the account summary.  The source
iterates over the summary dicts built earlier; their account and
property_summaries entries are exactly the fields read here. -/
def processAccountSummary (api : AdminApi) (s : AccountSummary) :
    Except Err Entities := do
  let props ← api.list_properties ("parent:" ++ s.account)
  let precs ← propertiesLoop api s.account props
  let sub ← psLoop api s.property_summaries
  pure (Entities.app { Entities.empty with properties := precs } sub)

/-- The account summaries loop of list_ga4_entities (main.py lines 333-595). -/
def summariesLoop (api : AdminApi) : List AccountSummary → Except Err Entities
  | [] => pure Entities.empty
  | s :: rest => do
    let d ← processAccountSummary api s
    let drest ← summariesLoop api rest
    pure (Entities.app d drest)

/-- list_ga4_entities (main.py lines 282-595): fill summaries and accounts,
then walk every account summary.  Exceptions raised by any remote call
propagate (the source has no try/except). -/
def list_ga4_entities (api : AdminApi) : Except Err Entities := do
  let sums ← api.list_account_summaries
  let accs ← api.list_accounts
  let delta ← summariesLoop api sums
  pure (Entities.app
    { Entities.empty with
        summaries := sums.map summaryRec
        accounts := accs.map accountRec }
    delta)

/- ## UA Management API side, with call/sleep traces -/

/-- REQUEST_DELAY (main.py line 42), the fixed inter-call delay of 0.1. -/
def REQUEST_DELAY : ℚ := 1 / 10

/-- An observable step of a UA retrieval: a remote management API call or a
time.sleep of a given duration. -/
inductive Event where
  | call (endpoint : String)
  | sleep (d : ℚ)
  deriving DecidableEq

/-- The UA Management API surface used by the get_ua_* functions: the items
lists their list().execute() calls return, keyed by the ids the code passes.
UA items are raw API dicts; the code never reshapes them. -/
structure MgmtApi where
  accountSummariesItems : List Rec
  goalsItems : List Rec
  viewsItems : List Rec
  filtersItems : String → List Rec
  filterLinksItems : String → List Rec
  segmentsItems : List Rec
  audienceItems : String → String → List Rec
  adsLinkItems : String → String → List Rec
  cdItems : String → String → List Rec
  cmItems : String → String → List Rec

/-- get_ua_account_summaries (main.py lines 134-145): one list call, items
returned directly; the source contains no sleep here. -/
def get_ua_account_summaries (api : MgmtApi) : List Event × List Rec :=
  ([Event.call "management.accountSummaries.list"], api.accountSummariesItems)

/-- get_ua_goals (main.py lines 148-160): one list call, no sleep. -/
def get_ua_goals (api : MgmtApi) : List Event × List Rec :=
  ([Event.call "management.goals.list"], api.goalsItems)

/-- get_ua_views (main.py lines 163-176): list call, then sleep, then
return. -/
def get_ua_views (api : MgmtApi) : List Event × List Rec :=
  ([Event.call "management.profiles.list", Event.sleep REQUEST_DELAY],
   api.viewsItems)

/-- The per-account loop of get_ua_filter_links (main.py lines 190-196). -/
def filterLinksLoop (api : MgmtApi) : List Rec → List Event × List Rec
  | [] => ([], [])
  | a :: rest =>
    let (tr, items) := filterLinksLoop api rest
    (Event.call "management.profileFilterLinks.list" :: Event.sleep REQUEST_DELAY :: tr,
     api.filterLinksItems (a.getS "id") ++ items)

/-- get_ua_filter_links (main.py lines 179-197). -/
def get_ua_filter_links (api : MgmtApi) (account_summaries : List Rec) :
    List Event × List Rec :=
  filterLinksLoop api account_summaries

/-- The per-account loop of get_ua_filters (main.py lines 211-217). -/
def filtersLoop (api : MgmtApi) : List Rec → List Event × List Rec
  | [] => ([], [])
  | a :: rest =>
    let (tr, items) := filtersLoop api rest
    (Event.call "management.filters.list" :: Event.sleep REQUEST_DELAY :: tr,
     api.filtersItems (a.getS "id") ++ items)

/-- get_ua_filters (main.py lines 200-217). -/
def get_ua_filters (api : MgmtApi) (account_summaries : List Rec) :
    List Event × List Rec :=
  filtersLoop api account_summaries

/-- get_ua_segments (main.py lines 220-232): builds segment_list and sleeps
but has no return statement, so the Python function returns None. -/
def get_ua_segments (api : MgmtApi) : List Event × Option (List Rec) :=
  let segment_list := api.segmentsItems
  ([Event.call "management.segments.list", Event.sleep REQUEST_DELAY],
   (fun _ => none) segment_list)

/-- The four property-level settings lists of get_ua_property_level_settings
(main.py lines 247-252). -/
structure UAPropertyLists where
  audiences : List Rec := []
  google_ads_links : List Rec := []
  cds : List Rec := []
  cms : List Rec := []

/-- Pointwise concatenation of the four UA property-level lists. -/
def UAPropertyLists.app (a b : UAPropertyLists) : UAPropertyLists where
  audiences := a.audiences ++ b.audiences
  google_ads_links := a.google_ads_links ++ b.google_ads_links
  cds := a.cds ++ b.cds
  cms := a.cms ++ b.cms

/-- One iteration of the web property loop (main.py lines 255-278): four
list calls, each followed by a sleep, each extending its list with the raw
returned items. -/
def uaPropertyStep (api : MgmtApi) (accountId propId : String) :
    List Event × UAPropertyLists :=
  ([Event.call "management.remarketingAudience.list", Event.sleep REQUEST_DELAY,
    Event.call "management.webPropertyAdWordsLinks.list", Event.sleep REQUEST_DELAY,
    Event.call "management.customDimensions.list", Event.sleep REQUEST_DELAY,
    Event.call "management.customMetrics.list", Event.sleep REQUEST_DELAY],
   { audiences := api.audienceItems accountId propId
     google_ads_links := api.adsLinkItems accountId propId
     cds := api.cdItems accountId propId
     cms := api.cmItems accountId propId })

/-- The web property loop over one account's webProperties. -/
def uaPropertiesLoop (api : MgmtApi) (accountId : String) :
    List Rec → List Event × UAPropertyLists
  | [] => ([], {})
  | p :: rest =>
    let (tr, ls) := uaPropertyStep api accountId (p.getS "id")
    let (trRest, lsRest) := uaPropertiesLoop api accountId rest
    (tr ++ trRest, ls.app lsRest)

/-- The account loop of get_ua_property_level_settings (main.py lines
253-278), including the truthiness guard on account['webProperties']. -/
def uaAccountsLoop (api : MgmtApi) : List Rec → List Event × UAPropertyLists
  | [] => ([], {})
  | a :: rest =>
    let here :=
      if (a.getObjs "webProperties").isEmpty then (([] : List Event), ({} : UAPropertyLists))
      else uaPropertiesLoop api (a.getS "id") (a.getObjs "webProperties")
    let (trRest, lsRest) := uaAccountsLoop api rest
    (here.1 ++ trRest, here.2.app lsRest)

/-- get_ua_property_level_settings (main.py lines 235-279). -/
def get_ua_property_level_settings (api : MgmtApi)
    (account_summaries : List Rec) : List Event × UAPropertyLists :=
  uaAccountsLoop api account_summaries

/- ## Serialization (create_gcs_json_file) and loading (save_to_bigquery) -/

/-- Quote a string as JSON (escaping is irrelevant to the claims). -/
def jsonQuote (s : String) : String := "\"" ++ s ++ "\""

mutual

/-- json.dump(item, w, default=str) on one value: an IntEnum member is an int
subclass, so json serializes it as its raw integer code; a Timestamp is not
serializable, so default=str renders it as a string. -/
def jsonOfValue : Value → String
  | Value.str s => jsonQuote s
  | Value.int i => toString i
  | Value.bool b => if b then "true" else "false"
  | Value.enumv n => toString n
  | Value.time t => jsonQuote (toString t)
  | Value.obj fields => "\x7b" ++ jsonOfFields fields ++ "\x7d"
  | Value.arr elems => "[" ++ jsonOfElems elems ++ "]"

/-- Fields of a JSON object, comma separated. -/
def jsonOfFields : List (String × Value) → String
  | [] => ""
  | [(k, v)] => jsonQuote k ++ ": " ++ jsonOfValue v
  | (k, v) :: rest => jsonQuote k ++ ": " ++ jsonOfValue v ++ ", " ++ jsonOfFields rest

/-- Elements of a JSON array, comma separated. -/
def jsonOfElems : List Value → String
  | [] => ""
  | [v] => jsonOfValue v
  | v :: rest => jsonOfValue v ++ ", " ++ jsonOfElems rest

end

/-- create_gcs_json_file (main.py lines 598-613): the newline-delimited JSON
content written for one entity type (one json.dump line per record). -/
def create_gcs_json_file (data : List Rec) : String :=
  String.join (data.map (fun r => jsonOfValue (Value.obj r) ++ "\n"))

/-- The outcome of one BigQuery load job: result() raises iff the job failed;
errors is the job's structured error list, which the source never reads. -/
structure LoadJobResult where
  failed : Bool
  errors : List String

/-- save_to_bigquery (main.py lines 616-630): submit the load job for the
table and block on result().  The function contains no print/logging call
and never inspects load_job.errors, so it produces no log entries; it raises
exactly when result() does, i.e. when the job failed. -/
def save_to_bigquery (jobs : String → LoadJobResult) (table_id : String) :
    Except Err (List String) :=
  let load_job := jobs table_id
  if load_job.failed then Except.error ("load job failed: " ++ table_id)
  else Except.ok []

/-- What the load loop of ga_settings_download produced: the staging files
written (name and content), the load jobs invoked, and the log lines
emitted. -/
structure LoadOutcome where
  files : List (String × String) := []
  jobsRun : List String := []
  logs : List String := []

/-- The load loop of ga_settings_download (main.py lines 110-114): for each
key in insertion order, if the list has data, write the Cloud Storage JSON
file and run the load job. -/
def loadLoop (jobs : String → LoadJobResult) :
    List (String × List Rec) → Except Err LoadOutcome
  | [] => pure {}
  | (key, data) :: rest =>
    if data.isEmpty then loadLoop jobs rest
    else do
      let logs ← save_to_bigquery jobs key
      let o ← loadLoop jobs rest
      pure { files := (key, create_gcs_json_file data) :: o.files
             jobsRun := key :: o.jobsRun
             logs := logs ++ o.logs }

/-- The lists dictionary assembled by ga_settings_download (main.py lines
61-108) in insertion order.  Python's x or [] is the identity on lists and
maps None to []; only get_ua_segments returns None. -/
def downloadLists (mApi : MgmtApi) (ga4 : Entities) : List (String × List Rec) :=
  let account_summaries := (get_ua_account_summaries mApi).2
  [("ua_account_summaries", account_summaries),
   ("ua_goals", (get_ua_goals mApi).2),
   ("ua_views", (get_ua_views mApi).2),
   ("ua_filters", (get_ua_filters mApi account_summaries).2),
   ("ua_filter_links", (get_ua_filter_links mApi account_summaries).2),
   ("ua_segments", ((get_ua_segments mApi).2).getD []),
   ("ua_custom_dimensions", (get_ua_property_level_settings mApi account_summaries).2.cds),
   ("ua_custom_metrics", (get_ua_property_level_settings mApi account_summaries).2.cms),
   ("ua_audiences", (get_ua_property_level_settings mApi account_summaries).2.audiences),
   ("ua_google_ads_links", (get_ua_property_level_settings mApi account_summaries).2.google_ads_links),
   ("ga4_account_summaries", ga4.summaries),
   ("ga4_accounts", ga4.accounts),
   ("ga4_properties", ga4.properties),
   ("ga4_android_app_data_streams", ga4.android_app_data_streams),
   ("ga4_measurement_protocol_secrets", ga4.measurement_protocol_secrets),
   ("ga4_conversion_events", ga4.conversion_events),
   ("ga4_custom_dimensions", ga4.custom_dimensions),
   ("ga4_custom_metrics", ga4.custom_metrics),
   ("ga4_firebase_links", ga4.firebase_links),
   ("ga4_google_ads_links", ga4.google_ads_links),
   ("ga4_ios_app_data_streams", ga4.ios_app_data_streams),
   ("ga4_web_data_streams", ga4.web_data_streams)]

/-- ga_settings_download (main.py lines 47-115): build the lists dictionary
from the UA retrievals and the GA4 traversal, run the load loop over it, and
return the string complete.  A raise anywhere propagates out. -/
def ga_settings_download (mApi : MgmtApi) (aApi : AdminApi)
    (jobs : String → LoadJobResult) :
    Except Err (List (String × List Rec) × LoadOutcome × String) := do
  let ga4 ← list_ga4_entities aApi
  let lists := downloadLists mApi ga4
  let outcome ← loadLoop jobs lists
  pure (lists, outcome, "complete")

/- ## The property overview aggregation query (report_tables/.../main.py) -/

/-- One LEFT JOIN clause of the property overview query: the subquery's
alias, the table it selects from, and the two sides of its ON condition as
written in the SQL text. -/
structure SubqueryJoin where
  sqAlias : String
  table : String
  onLeft : String
  onRight : String
  deriving DecidableEq

/-- The LEFT JOIN clauses of the property overview query, transcribed in
order from src/report_tables/property_overview/function/main.py lines
62-173.  The dv360_links clause (lines 111-120) is transcribed exactly as
written: its ON condition references google_ads_links.property_id. -/
def propertyOverviewJoins : List SubqueryJoin :=
  [{ sqAlias := "properties", table := "ga4_properties",
     onLeft := "property_summaries.property", onRight := "properties.property_id" },
   { sqAlias := "data_streams", table := "ga4_data_streams",
     onLeft := "property_summaries.property", onRight := "data_streams.property_id" },
   { sqAlias := "conversion_events", table := "ga4_conversion_events",
     onLeft := "property_summaries.property", onRight := "conversion_events.property_id" },
   { sqAlias := "google_ads_links", table := "ga4_google_ads_links",
     onLeft := "property_summaries.property", onRight := "google_ads_links.property_id" },
   { sqAlias := "dv360_links", table := "ga4_dv360_links",
     onLeft := "property_summaries.property", onRight := "google_ads_links.property_id" },
   { sqAlias := "firebase_links", table := "ga4_firebase_links",
     onLeft := "property_summaries.property", onRight := "firebase_links.property_id" },
   { sqAlias := "custom_dimensions", table := "ga4_custom_dimensions",
     onLeft := "property_summaries.property", onRight := "custom_dimensions.property_id" },
   { sqAlias := "custom_metrics", table := "ga4_custom_metrics",
     onLeft := "property_summaries.property", onRight := "custom_metrics.property_id" },
   { sqAlias := "measurement_protocol_secrets", table := "ga4_measurement_protocol_secrets",
     onLeft := "property_summaries.property", onRight := "measurement_protocol_secrets.property_id" },
   { sqAlias := "audiences", table := "ga4_audiences",
     onLeft := "property_summaries.property", onRight := "audiences.property_id" }]

/- ## Infrastructure lemmas for the Except monad -/

/-- pure on Except is Except.ok. -/
theorem expure_eq {α : Type} (a : α) : (pure a : Except Err α) = Except.ok a := rfl

/-- Bind on a successful Except value. -/
theorem exbind_ok {α β : Type} (a : α) (f : α → Except Err β) :
    (Except.ok a >>= f : Except Err β) = f a := rfl

/-- Bind on a raised Except value: the error propagates. -/
theorem exbind_error {α β : Type} (e : Err) (f : α → Except Err β) :
    (Except.error e >>= f : Except Err β) = Except.error e := rfl

/- ## Ancestry stamping and secret provenance -/

/-- A record carries the property and property_display_name fields of the
property summary ps. -/
def stamped (r : Rec) (ps : PropertySummary) : Prop :=
  Rec.lookup r "property" = some (Value.str ps.property) ∧
  Rec.lookup r "property_display_name" = some (Value.str ps.display_name)

/-- P holds of every record in the nine sub-property collections (the three
stream lists, measurement protocol secrets, conversion events, custom
dimensions, custom metrics, Google Ads links, Firebase links). -/
def allSubRecords (e : Entities) (P : Rec → Prop) : Prop :=
  (∀ r ∈ e.android_app_data_streams, P r) ∧
  (∀ r ∈ e.ios_app_data_streams, P r) ∧
  (∀ r ∈ e.web_data_streams, P r) ∧
  (∀ r ∈ e.measurement_protocol_secrets, P r) ∧
  (∀ r ∈ e.conversion_events, P r) ∧
  (∀ r ∈ e.custom_dimensions, P r) ∧
  (∀ r ∈ e.custom_metrics, P r) ∧
  (∀ r ∈ e.google_ads_links, P r) ∧
  (∀ r ∈ e.firebase_links, P r)

/-- The empty entities dictionary satisfies any sub-record predicate. -/
theorem allSubRecords_empty (P : Rec → Prop) : allSubRecords Entities.empty P := by
  refine ⟨?_, ?_, ?_, ?_, ?_, ?_, ?_, ?_, ?_⟩ <;> simp [Entities.empty, allSubRecords]

/-- Sub-record predicates split over pointwise concatenation. -/
theorem allSubRecords_app {a b : Entities} {P : Rec → Prop}
    (ha : allSubRecords a P) (hb : allSubRecords b P) :
    allSubRecords (Entities.app a b) P := by
  obtain ⟨a1, a2, a3, a4, a5, a6, a7, a8, a9⟩ := ha
  obtain ⟨b1, b2, b3, b4, b5, b6, b7, b8, b9⟩ := hb
  refine ⟨?_, ?_, ?_, ?_, ?_, ?_, ?_, ?_, ?_⟩ <;>
    · intro r hr
      rw [Entities.app] at hr
      simp only [List.mem_append] at hr
      first
      | exact hr.elim (fun h => a1 r h) (fun h => b1 r h)
      | exact hr.elim (fun h => a2 r h) (fun h => b2 r h)
      | exact hr.elim (fun h => a3 r h) (fun h => b3 r h)
      | exact hr.elim (fun h => a4 r h) (fun h => b4 r h)
      | exact hr.elim (fun h => a5 r h) (fun h => b5 r h)
      | exact hr.elim (fun h => a6 r h) (fun h => b6 r h)
      | exact hr.elim (fun h => a7 r h) (fun h => b7 r h)
      | exact hr.elim (fun h => a8 r h) (fun h => b8 r h)
      | exact hr.elim (fun h => a9 r h) (fun h => b9 r h)

/-- Sub-record predicates are monotone. -/
theorem allSubRecords_mono {e : Entities} {P Q : Rec → Prop}
    (h : allSubRecords e P) (hPQ : ∀ r, P r → Q r) : allSubRecords e Q := by
  obtain ⟨a1, a2, a3, a4, a5, a6, a7, a8, a9⟩ := h
  exact ⟨fun r hr => hPQ r (a1 r hr), fun r hr => hPQ r (a2 r hr),
         fun r hr => hPQ r (a3 r hr), fun r hr => hPQ r (a4 r hr),
         fun r hr => hPQ r (a5 r hr), fun r hr => hPQ r (a6 r hr),
         fun r hr => hPQ r (a7 r hr), fun r hr => hPQ r (a8 r hr),
         fun r hr => hPQ r (a9 r hr)⟩

/-- A measurement protocol secret record that was produced by listing the
secrets of one of the stream dicts in sds, with the stream dict's name as
parent and the given type tag. -/
def secretFrom (api : AdminApi) (ps : PropertySummary) (tag : String)
    (sds : List Rec) (r : Rec) : Prop :=
  ∃ sd ∈ sds, ∃ ms,
    api.list_measurement_protocol_secrets (sd.getS "name") = Except.ok ms ∧
    ∃ m ∈ ms, r = mpsRec m (sd.getS "name") tag ps

/-- Characterization of the android stream loop on success: stream dicts come
one-to-one from the listed streams, and every secret record is stamped with
the property summary and produced from one of the emitted stream dicts. -/
theorem androidLoop_spec (api : AdminApi) (ps : PropertySummary) :
    ∀ ss sds mds, androidLoop api ps ss = Except.ok (sds, mds) →
      sds = ss.map (fun s => androidStreamRec s ps) ∧
      ∀ r ∈ mds, stamped r ps ∧ secretFrom api ps "android app" sds r := by
  intro ss
  induction ss with
  | nil =>
    intro sds mds h
    simp [androidLoop, expure_eq] at h
    obtain ⟨h1, h2⟩ := h
    subst h1; subst h2
    simp
  | cons s rest ih =>
    intro sds mds h
    rw [androidLoop] at h
    cases hm : api.list_measurement_protocol_secrets ((androidStreamRec s ps).getS "name") with
    | error e => rw [hm] at h; simp [exbind_error] at h
    | ok ms =>
      rw [hm] at h
      cases hrest : androidLoop api ps rest with
      | error e => rw [hrest] at h; simp [exbind_ok, exbind_error] at h
      | ok out =>
        rw [hrest] at h
        simp only [exbind_ok, expure_eq, Except.ok.injEq, Prod.mk.injEq] at h
        obtain ⟨h1, h2⟩ := h
        obtain ⟨ihs, ihm⟩ := ih out.1 out.2 (by rw [hrest])
        constructor
        · rw [← h1, List.map_cons, ihs]
        · intro r hr
          rw [← h2, List.mem_append] at hr
          rcases hr with hr | hr
          · obtain ⟨m, hm2, hr⟩ := List.mem_map.mp hr
            subst hr
            refine ⟨⟨rfl, rfl⟩, androidStreamRec s ps, ?_, ms, hm, m, hm2, rfl⟩
            rw [← h1]; exact List.mem_cons_self _ _
          · obtain ⟨hst, sd, hsd, hrest2⟩ := ihm r hr
            refine ⟨hst, sd, ?_, hrest2⟩
            rw [← h1]; exact List.mem_cons_of_mem _ hsd

/-- Characterization of the iOS stream loop on success. -/
theorem iosLoop_spec (api : AdminApi) (ps : PropertySummary) :
    ∀ ss sds mds, iosLoop api ps ss = Except.ok (sds, mds) →
      sds = ss.map (fun s => iosStreamRec s ps) ∧
      ∀ r ∈ mds, stamped r ps ∧ secretFrom api ps "ios app" sds r := by
  intro ss
  induction ss with
  | nil =>
    intro sds mds h
    simp [iosLoop, expure_eq] at h
    obtain ⟨h1, h2⟩ := h
    subst h1; subst h2
    simp
  | cons s rest ih =>
    intro sds mds h
    rw [iosLoop] at h
    cases hm : api.list_measurement_protocol_secrets ((iosStreamRec s ps).getS "name") with
    | error e => rw [hm] at h; simp [exbind_error] at h
    | ok ms =>
      rw [hm] at h
      cases hrest : iosLoop api ps rest with
      | error e => rw [hrest] at h; simp [exbind_ok, exbind_error] at h
      | ok out =>
        rw [hrest] at h
        simp only [exbind_ok, expure_eq, Except.ok.injEq, Prod.mk.injEq] at h
        obtain ⟨h1, h2⟩ := h
        obtain ⟨ihs, ihm⟩ := ih out.1 out.2 (by rw [hrest])
        constructor
        · rw [← h1, List.map_cons, ihs]
        · intro r hr
          rw [← h2, List.mem_append] at hr
          rcases hr with hr | hr
          · obtain ⟨m, hm2, hr⟩ := List.mem_map.mp hr
            subst hr
            refine ⟨⟨rfl, rfl⟩, iosStreamRec s ps, ?_, ms, hm, m, hm2, rfl⟩
            rw [← h1]; exact List.mem_cons_self _ _
          · obtain ⟨hst, sd, hsd, hrest2⟩ := ihm r hr
            refine ⟨hst, sd, ?_, hrest2⟩
            rw [← h1]; exact List.mem_cons_of_mem _ hsd

/-- Characterization of the web stream loop on success. -/
theorem webLoop_spec (api : AdminApi) (ps : PropertySummary) :
    ∀ ss sds mds, webLoop api ps ss = Except.ok (sds, mds) →
      sds = ss.map (fun s => webStreamRec s ps) ∧
      ∀ r ∈ mds, stamped r ps ∧ secretFrom api ps "web" sds r := by
  intro ss
  induction ss with
  | nil =>
    intro sds mds h
    simp [webLoop, expure_eq] at h
    obtain ⟨h1, h2⟩ := h
    subst h1; subst h2
    simp
  | cons s rest ih =>
    intro sds mds h
    rw [webLoop] at h
    cases hm : api.list_measurement_protocol_secrets ((webStreamRec s ps).getS "name") with
    | error e => rw [hm] at h; simp [exbind_error] at h
    | ok ms =>
      rw [hm] at h
      cases hrest : webLoop api ps rest with
      | error e => rw [hrest] at h; simp [exbind_ok, exbind_error] at h
      | ok out =>
        rw [hrest] at h
        simp only [exbind_ok, expure_eq, Except.ok.injEq, Prod.mk.injEq] at h
        obtain ⟨h1, h2⟩ := h
        obtain ⟨ihs, ihm⟩ := ih out.1 out.2 (by rw [hrest])
        constructor
        · rw [← h1, List.map_cons, ihs]
        · intro r hr
          rw [← h2, List.mem_append] at hr
          rcases hr with hr | hr
          · obtain ⟨m, hm2, hr⟩ := List.mem_map.mp hr
            subst hr
            refine ⟨⟨rfl, rfl⟩, webStreamRec s ps, ?_, ms, hm, m, hm2, rfl⟩
            rw [← h1]; exact List.mem_cons_self _ _
          · obtain ⟨hst, sd, hsd, hrest2⟩ := ihm r hr
            refine ⟨hst, sd, ?_, hrest2⟩
            rw [← h1]; exact List.mem_cons_of_mem _ hsd


/-- Success inversion for the property summary body: every remote call in it
succeeded and the delta is exactly the record built from their results. -/
theorem processPropertySummary_inv (api : AdminApi) (ps : PropertySummary)
    (d : Entities) (h : processPropertySummary api ps = Except.ok d) :
    ∃ androids adicts amps ioses idicts imps webs wdicts wmps events cds cms adsLinks fbLinks,
      api.list_android_app_data_streams ps.property = Except.ok androids ∧
      androidLoop api ps androids = Except.ok (adicts, amps) ∧
      api.list_ios_app_data_streams ps.property = Except.ok ioses ∧
      iosLoop api ps ioses = Except.ok (idicts, imps) ∧
      api.list_web_data_streams ps.property = Except.ok webs ∧
      webLoop api ps webs = Except.ok (wdicts, wmps) ∧
      api.list_conversion_events ps.property = Except.ok events ∧
      api.list_custom_dimensions ps.property = Except.ok cds ∧
      api.list_custom_metrics ps.property = Except.ok cms ∧
      api.list_google_ads_links ps.property = Except.ok adsLinks ∧
      api.list_firebase_links ps.property = Except.ok fbLinks ∧
      d = { Entities.empty with
            android_app_data_streams := adicts
            ios_app_data_streams := idicts
            web_data_streams := wdicts
            measurement_protocol_secrets := amps ++ imps ++ wmps
            conversion_events := events.map (fun e => conversionEventRec e ps)
            custom_dimensions := cds.map (fun cd => customDimensionRec cd ps)
            custom_metrics := cms.map (fun cm => customMetricRec cm ps)
            google_ads_links := adsLinks.map (fun l => googleAdsLinkRec l ps)
            firebase_links := fbLinks.map (fun l => firebaseLinkRec l ps) } := by
  rw [processPropertySummary] at h
  cases h1 : api.list_android_app_data_streams ps.property with
  | error e => rw [h1] at h; simp [exbind_error] at h
  | ok androids =>
  rw [h1] at h; simp only [exbind_ok] at h
  cases h2 : androidLoop api ps androids with
  | error e => rw [h2] at h; simp [exbind_error] at h
  | ok apair =>
  rw [h2] at h; simp only [exbind_ok] at h
  cases h3 : api.list_ios_app_data_streams ps.property with
  | error e => rw [h3] at h; simp [exbind_error] at h
  | ok ioses =>
  rw [h3] at h; simp only [exbind_ok] at h
  cases h4 : iosLoop api ps ioses with
  | error e => rw [h4] at h; simp [exbind_error] at h
  | ok ipair =>
  rw [h4] at h; simp only [exbind_ok] at h
  cases h5 : api.list_web_data_streams ps.property with
  | error e => rw [h5] at h; simp [exbind_error] at h
  | ok webs =>
  rw [h5] at h; simp only [exbind_ok] at h
  cases h6 : webLoop api ps webs with
  | error e => rw [h6] at h; simp [exbind_error] at h
  | ok wpair =>
  rw [h6] at h; simp only [exbind_ok] at h
  cases h7 : api.list_conversion_events ps.property with
  | error e => rw [h7] at h; simp [exbind_error] at h
  | ok events =>
  rw [h7] at h; simp only [exbind_ok] at h
  cases h8 : api.list_custom_dimensions ps.property with
  | error e => rw [h8] at h; simp [exbind_error] at h
  | ok cds =>
  rw [h8] at h; simp only [exbind_ok] at h
  cases h9 : api.list_custom_metrics ps.property with
  | error e => rw [h9] at h; simp [exbind_error] at h
  | ok cms =>
  rw [h9] at h; simp only [exbind_ok] at h
  cases h10 : api.list_google_ads_links ps.property with
  | error e => rw [h10] at h; simp [exbind_error] at h
  | ok adsLinks =>
  rw [h10] at h; simp only [exbind_ok] at h
  cases h11 : api.list_firebase_links ps.property with
  | error e => rw [h11] at h; simp [exbind_error] at h
  | ok fbLinks =>
  rw [h11] at h; simp only [exbind_ok, expure_eq, Except.ok.injEq] at h
  exact ⟨androids, apair.1, apair.2, ioses, ipair.1, ipair.2, webs, wpair.1, wpair.2,
         events, cds, cms, adsLinks, fbLinks,
         rfl, h2, rfl, h4, rfl, h6, rfl, rfl, rfl, rfl, rfl, h.symm⟩

/-- Every record built below the property level carries the stamping fields
(checked once per builder; the lookups reduce definitionally). -/
theorem stamped_builders (ps : PropertySummary) :
    (∀ s, stamped (androidStreamRec s ps) ps) ∧
    (∀ s, stamped (iosStreamRec s ps) ps) ∧
    (∀ s, stamped (webStreamRec s ps) ps) ∧
    (∀ m streamName tag, stamped (mpsRec m streamName tag ps) ps) ∧
    (∀ e, stamped (conversionEventRec e ps) ps) ∧
    (∀ cd, stamped (customDimensionRec cd ps) ps) ∧
    (∀ cm, stamped (customMetricRec cm ps) ps) ∧
    (∀ l, stamped (googleAdsLinkRec l ps) ps) ∧
    (∀ l, stamped (firebaseLinkRec l ps) ps) :=
  ⟨fun _ => ⟨rfl, rfl⟩, fun _ => ⟨rfl, rfl⟩, fun _ => ⟨rfl, rfl⟩,
   fun _ _ _ => ⟨rfl, rfl⟩, fun _ => ⟨rfl, rfl⟩, fun _ => ⟨rfl, rfl⟩,
   fun _ => ⟨rfl, rfl⟩, fun _ => ⟨rfl, rfl⟩, fun _ => ⟨rfl, rfl⟩⟩

/-- Every sub-property record emitted for one property summary is stamped
with exactly that summary's property and display name. -/
theorem processPropertySummary_stamped (api : AdminApi) (ps : PropertySummary)
    (d : Entities) (h : processPropertySummary api ps = Except.ok d) :
    allSubRecords d (fun r => stamped r ps) := by
  obtain ⟨androids, adicts, amps, ioses, idicts, imps, webs, wdicts, wmps,
          events, cds, cms, adsLinks, fbLinks,
          h1, h2, h3, h4, h5, h6, h7, h8, h9, h10, h11, hd⟩ :=
    processPropertySummary_inv api ps d h
  obtain ⟨hb1, hb2, hb3, hb4, hb5, hb6, hb7, hb8, hb9⟩ := stamped_builders ps
  obtain ⟨ha, ham⟩ := androidLoop_spec api ps androids adicts amps h2
  obtain ⟨hi, him⟩ := iosLoop_spec api ps ioses idicts imps h4
  obtain ⟨hw, hwm⟩ := webLoop_spec api ps webs wdicts wmps h6
  subst hd
  refine ⟨?_, ?_, ?_, ?_, ?_, ?_, ?_, ?_, ?_⟩
  · intro r hr
    simp only at hr
    rw [ha] at hr
    obtain ⟨s, _, hr⟩ := List.mem_map.mp hr
    exact hr ▸ hb1 s
  · intro r hr
    simp only at hr
    rw [hi] at hr
    obtain ⟨s, _, hr⟩ := List.mem_map.mp hr
    exact hr ▸ hb2 s
  · intro r hr
    simp only at hr
    rw [hw] at hr
    obtain ⟨s, _, hr⟩ := List.mem_map.mp hr
    exact hr ▸ hb3 s
  · intro r hr
    simp only [List.mem_append] at hr
    rcases hr with (hr | hr) | hr
    · exact (ham r hr).1
    · exact (him r hr).1
    · exact (hwm r hr).1
  · intro r hr
    simp only at hr
    obtain ⟨e, _, hr⟩ := List.mem_map.mp hr
    exact hr ▸ hb5 e
  · intro r hr
    simp only at hr
    obtain ⟨cd, _, hr⟩ := List.mem_map.mp hr
    exact hr ▸ hb6 cd
  · intro r hr
    simp only at hr
    obtain ⟨cm, _, hr⟩ := List.mem_map.mp hr
    exact hr ▸ hb7 cm
  · intro r hr
    simp only at hr
    obtain ⟨l, _, hr⟩ := List.mem_map.mp hr
    exact hr ▸ hb8 l
  · intro r hr
    simp only at hr
    obtain ⟨l, _, hr⟩ := List.mem_map.mp hr
    exact hr ▸ hb9 l

/-- Sub-record predicates hold trivially of a delta that only fills the
properties collection. -/
theorem allSubRecords_propsOnly (l : List Rec) (P : Rec → Prop) :
    allSubRecords { Entities.empty with properties := l } P := by
  refine ⟨?_, ?_, ?_, ?_, ?_, ?_, ?_, ?_, ?_⟩ <;> · intro r hr; simp [Entities.empty] at hr

/-- Every sub-property record produced by the property summary loop is
stamped with one of the traversed property summaries. -/
theorem psLoop_stamped (api : AdminApi) :
    ∀ pss d, psLoop api pss = Except.ok d →
      allSubRecords d (fun r => ∃ ps ∈ pss, stamped r ps) := by
  intro pss
  induction pss with
  | nil =>
    intro d h
    simp [psLoop, expure_eq] at h
    subst h
    exact allSubRecords_empty _
  | cons ps rest ih =>
    intro d h
    rw [psLoop] at h
    cases h1 : processPropertySummary api ps with
    | error e => rw [h1] at h; simp [exbind_error] at h
    | ok d1 =>
    rw [h1] at h; simp only [exbind_ok] at h
    cases h2 : psLoop api rest with
    | error e => rw [h2] at h; simp [exbind_error] at h
    | ok d2 =>
    rw [h2] at h; simp only [exbind_ok, expure_eq, Except.ok.injEq] at h
    subst h
    refine allSubRecords_app ?_ ?_
    · exact allSubRecords_mono (processPropertySummary_stamped api ps d1 h1)
        (fun r hr => ⟨ps, List.mem_cons_self _ _, hr⟩)
    · exact allSubRecords_mono (ih d2 h2)
        (fun r hr => by obtain ⟨ps', hps', hst⟩ := hr; exact ⟨ps', List.mem_cons_of_mem _ hps', hst⟩)

/-- Success inversion for the account summary body. -/
theorem processAccountSummary_inv (api : AdminApi) (s : AccountSummary)
    (d : Entities) (h : processAccountSummary api s = Except.ok d) :
    ∃ props precs sub,
      api.list_properties ("parent:" ++ s.account) = Except.ok props ∧
      propertiesLoop api s.account props = Except.ok precs ∧
      psLoop api s.property_summaries = Except.ok sub ∧
      d = Entities.app { Entities.empty with properties := precs } sub := by
  rw [processAccountSummary] at h
  cases h1 : api.list_properties ("parent:" ++ s.account) with
  | error e => rw [h1] at h; simp [exbind_error] at h
  | ok props =>
  rw [h1] at h; simp only [exbind_ok] at h
  cases h2 : propertiesLoop api s.account props with
  | error e => rw [h2] at h; simp [exbind_error] at h
  | ok precs =>
  rw [h2] at h; simp only [exbind_ok] at h
  cases h3 : psLoop api s.property_summaries with
  | error e => rw [h3] at h; simp [exbind_error] at h
  | ok sub =>
  rw [h3] at h; simp only [exbind_ok, expure_eq, Except.ok.injEq] at h
  exact ⟨props, precs, sub, rfl, h2, rfl, h.symm⟩

/-- Characterization of the properties loop on success: one flattened record
per listed property, enriched with exactly the data retention settings and
google signals settings the api returned for it. -/
theorem propertiesLoop_spec (api : AdminApi) (account : String) :
    ∀ props recs, propertiesLoop api account props = Except.ok recs →
      recs.length = props.length ∧
      ∀ r ∈ recs, ∃ p ∈ props, ∃ drs gss,
        api.get_data_retention_settings (p.name ++ "/dataRetentionSettings") = Except.ok drs ∧
        api.get_google_signals_settings (p.name ++ "/googleSignalsSettings") = Except.ok gss ∧
        r = propertyRec p account drs gss := by
  intro props
  induction props with
  | nil =>
    intro recs h
    simp [propertiesLoop, expure_eq] at h
    subst h
    simp
  | cons p rest ih =>
    intro recs h
    rw [propertiesLoop] at h
    cases h1 : api.get_data_retention_settings (p.name ++ "/dataRetentionSettings") with
    | error e => rw [h1] at h; simp [exbind_error] at h
    | ok drs =>
    rw [h1] at h; simp only [exbind_ok] at h
    cases h2 : api.get_google_signals_settings (p.name ++ "/googleSignalsSettings") with
    | error e => rw [h2] at h; simp [exbind_error] at h
    | ok gss =>
    rw [h2] at h; simp only [exbind_ok] at h
    cases h3 : propertiesLoop api account rest with
    | error e => rw [h3] at h; simp [exbind_error] at h
    | ok ds =>
    rw [h3] at h; simp only [exbind_ok, expure_eq, Except.ok.injEq] at h
    obtain ⟨hlen, hmem⟩ := ih ds h3
    subst h
    constructor
    · simp [hlen]
    · intro r hr
      rcases List.mem_cons.mp hr with hr | hr
      · exact ⟨p, List.mem_cons_self _ _, drs, gss, h1, h2, hr⟩
      · obtain ⟨p', hp', drs', gss', hh1, hh2, hh3⟩ := hmem r hr
        exact ⟨p', List.mem_cons_of_mem _ hp', drs', gss', hh1, hh2, hh3⟩

/-- Every sub-property record produced by the account summaries loop is
stamped with a property summary of one of the traversed account summaries. -/
theorem summariesLoop_stamped (api : AdminApi) :
    ∀ ss d, summariesLoop api ss = Except.ok d →
      allSubRecords d (fun r => ∃ s ∈ ss, ∃ ps ∈ s.property_summaries, stamped r ps) := by
  intro ss
  induction ss with
  | nil =>
    intro d h
    simp [summariesLoop, expure_eq] at h
    subst h
    exact allSubRecords_empty _
  | cons s rest ih =>
    intro d h
    rw [summariesLoop] at h
    cases h1 : processAccountSummary api s with
    | error e => rw [h1] at h; simp [exbind_error] at h
    | ok d1 =>
    rw [h1] at h; simp only [exbind_ok] at h
    cases h2 : summariesLoop api rest with
    | error e => rw [h2] at h; simp [exbind_error] at h
    | ok d2 =>
    rw [h2] at h; simp only [exbind_ok, expure_eq, Except.ok.injEq] at h
    subst h
    obtain ⟨props, precs, sub, hp, hpl, hps, hd1⟩ := processAccountSummary_inv api s d1 h1
    refine allSubRecords_app ?_ ?_
    · subst hd1
      refine allSubRecords_app ?_ ?_
      · exact allSubRecords_mono (allSubRecords_propsOnly precs _) (fun r hr => hr)
      · exact allSubRecords_mono (psLoop_stamped api s.property_summaries sub hps)
          (fun r hr => by
            obtain ⟨ps, hps', hst⟩ := hr
            exact ⟨s, List.mem_cons_self _ _, ps, hps', hst⟩)
    · exact allSubRecords_mono (ih d2 h2)
        (fun r hr => by
          obtain ⟨s', hs', ps, hps', hst⟩ := hr
          exact ⟨s', List.mem_cons_of_mem _ hs', ps, hps', hst⟩)

/-- Appending the empty delta on the left is the identity. -/
theorem Entities.empty_app (d : Entities) : Entities.app Entities.empty d = d := by
  simp [Entities.app, Entities.empty]

/-- Appending the empty delta on the right is the identity. -/
theorem Entities.app_empty (d : Entities) : Entities.app d Entities.empty = d := by
  simp [Entities.app, Entities.empty]

/-- Pointwise concatenation of deltas is associative. -/
theorem Entities.app_assoc (a b c : Entities) :
    Entities.app (Entities.app a b) c = Entities.app a (Entities.app b c) := by
  simp [Entities.app]

/-- The summaries loop splits over list concatenation. -/
theorem summariesLoop_append (api : AdminApi) :
    ∀ pre post, summariesLoop api (pre ++ post) =
      (summariesLoop api pre >>= fun d1 =>
        summariesLoop api post >>= fun d2 => pure (Entities.app d1 d2)) := by
  intro pre post
  induction pre with
  | nil =>
    cases h : summariesLoop api post with
    | error e => simp [summariesLoop, h, exbind_ok, exbind_error, expure_eq]
    | ok d =>
      simp [summariesLoop, h, exbind_ok, exbind_error, expure_eq, Entities.empty_app]
  | cons s rest ih =>
    cases h1 : processAccountSummary api s with
    | error e => simp [List.cons_append, summariesLoop, h1, exbind_error]
    | ok d1 =>
      cases h2 : summariesLoop api rest with
      | error e =>
        simp [List.cons_append, summariesLoop, h1, ih, h2, exbind_ok, exbind_error]
      | ok d2 =>
        cases h3 : summariesLoop api post with
        | error e =>
          simp [List.cons_append, summariesLoop, h1, ih, h2, h3, exbind_ok, exbind_error]
        | ok d3 =>
          simp [List.cons_append, summariesLoop, h1, ih, h2, h3, exbind_ok,
                exbind_error, expure_eq, Entities.app_assoc]

/-- Success inversion for list_ga4_entities. -/
theorem list_ga4_entities_inv (api : AdminApi) (e : Entities)
    (h : list_ga4_entities api = Except.ok e) :
    ∃ sums accs delta,
      api.list_account_summaries = Except.ok sums ∧
      api.list_accounts = Except.ok accs ∧
      summariesLoop api sums = Except.ok delta ∧
      e = Entities.app
        { Entities.empty with
            summaries := sums.map summaryRec
            accounts := accs.map accountRec } delta := by
  rw [list_ga4_entities] at h
  cases h1 : api.list_account_summaries with
  | error er => rw [h1] at h; simp [exbind_error] at h
  | ok sums =>
  rw [h1] at h; simp only [exbind_ok] at h
  cases h2 : api.list_accounts with
  | error er => rw [h2] at h; simp [exbind_error] at h
  | ok accs =>
  rw [h2] at h; simp only [exbind_ok] at h
  cases h3 : summariesLoop api sums with
  | error er => rw [h3] at h; simp [exbind_error] at h
  | ok delta =>
  rw [h3] at h; simp only [exbind_ok, expure_eq, Except.ok.injEq] at h
  exact ⟨sums, accs, delta, rfl, rfl, h3, h.symm⟩

/-- Success inversion for ga_settings_download. -/
theorem ga_settings_download_inv (mApi : MgmtApi) (aApi : AdminApi)
    (jobs : String → LoadJobResult)
    (lists : List (String × List Rec)) (o : LoadOutcome) (res : String)
    (h : ga_settings_download mApi aApi jobs = Except.ok (lists, o, res)) :
    ∃ ga4, list_ga4_entities aApi = Except.ok ga4 ∧
      lists = downloadLists mApi ga4 ∧
      loadLoop jobs (downloadLists mApi ga4) = Except.ok o ∧
      res = "complete" := by
  rw [ga_settings_download] at h
  cases h1 : list_ga4_entities aApi with
  | error er => rw [h1] at h; simp [exbind_error] at h
  | ok ga4 =>
  rw [h1] at h; simp only [exbind_ok] at h
  cases h2 : loadLoop jobs (downloadLists mApi ga4) with
  | error er => rw [h2] at h; simp [exbind_error] at h
  | ok o2 =>
  rw [h2] at h
  simp only [exbind_ok, expure_eq, Except.ok.injEq, Prod.mk.injEq] at h
  obtain ⟨hl, ho, hr⟩ := h
  refine ⟨ga4, rfl, hl.symm, ?_, hr.symm⟩
  rw [h2, ho]

/-- Characterization of the load loop on success: staging files and load jobs
are produced exactly for the keys with non-empty data, in order, and no log
line is ever emitted. -/
theorem loadLoop_spec (jobs : String → LoadJobResult) :
    ∀ lists o, loadLoop jobs lists = Except.ok o →
      o.jobsRun = (lists.filter (fun kv => !kv.2.isEmpty)).map Prod.fst ∧
      o.files.map Prod.fst = (lists.filter (fun kv => !kv.2.isEmpty)).map Prod.fst ∧
      o.logs = [] := by
  intro lists
  induction lists with
  | nil =>
    intro o h
    simp [loadLoop, expure_eq] at h
    subst h
    simp
  | cons kv rest ih =>
    intro o h
    obtain ⟨key, data⟩ := kv
    rw [loadLoop] at h
    by_cases hd : data.isEmpty
    · rw [if_pos hd] at h
      obtain ⟨h1, h2, h3⟩ := ih o h
      refine ⟨?_, ?_, h3⟩ <;> simp [List.filter_cons, hd, h1, h2]
    · rw [if_neg hd] at h
      rw [save_to_bigquery] at h
      by_cases hf : (jobs key).failed
      · rw [if_pos hf] at h; simp [exbind_error] at h
      · rw [if_neg hf] at h
        rw [exbind_ok] at h
        cases hrest : loadLoop jobs rest with
        | error er => rw [hrest] at h; simp [exbind_error] at h
        | ok orest =>
        rw [hrest] at h
        simp only [exbind_ok, expure_eq, Except.ok.injEq] at h
        obtain ⟨h1, h2, h3⟩ := ih orest hrest
        subst h
        refine ⟨?_, ?_, ?_⟩ <;> simp [List.filter_cons, hd, h1, h2, h3]

/- ## Trace predicates for the request delay -/

/-- Checks that every remote call event in a trace is immediately followed by
a sleep of REQUEST_DELAY. -/
def sleepAfterCalls : List Event → Bool
  | [] => true
  | [Event.call _] => false
  | Event.call _ :: Event.call _ :: _ => false
  | Event.call _ :: Event.sleep d :: rest =>
      (d == REQUEST_DELAY) && sleepAfterCalls (Event.sleep d :: rest)
  | Event.sleep _ :: rest => sleepAfterCalls rest

/-- Checks whether a trace contains any sleep event at all. -/
def hasSleep (tr : List Event) : Bool :=
  tr.any (fun ev => match ev with | Event.sleep _ => true | _ => false)

/-- sleepAfterCalls is preserved by concatenating well-paced traces. -/
theorem sleepAfterCalls_append :
    ∀ t1 t2, sleepAfterCalls t1 = true → sleepAfterCalls t2 = true →
      sleepAfterCalls (t1 ++ t2) = true := by
  intro t1
  induction t1 using sleepAfterCalls.induct with
  | case1 => intro t2 _ h2; simpa using h2
  | case2 ep => intro t2 h1 _; simp [sleepAfterCalls] at h1
  | case3 ep ep2 tl => intro t2 h1 _; simp [sleepAfterCalls] at h1
  | case4 ep d rest ih =>
    intro t2 h1 h2
    rw [sleepAfterCalls] at h1
    simp only [Bool.and_eq_true, beq_iff_eq] at h1
    obtain ⟨hdel, h1⟩ := h1
    rw [List.cons_append, List.cons_append, sleepAfterCalls]
    have := ih t2 h1 h2
    rw [List.cons_append] at this
    subst hdel
    simpa using this
  | case5 d rest ih =>
    intro t2 h1 h2
    rw [List.cons_append, sleepAfterCalls]
    rw [sleepAfterCalls] at h1
    exact ih t2 h1 h2

/-- One web property iteration paces all four of its calls. -/
theorem sleepAfterCalls_uaPropertyStep (api : MgmtApi) (accountId propId : String) :
    sleepAfterCalls (uaPropertyStep api accountId propId).1 = true := by
  simp [uaPropertyStep, sleepAfterCalls]

/-- The web property loop paces all its calls. -/
theorem sleepAfterCalls_uaPropertiesLoop (api : MgmtApi) (accountId : String) :
    ∀ props, sleepAfterCalls (uaPropertiesLoop api accountId props).1 = true := by
  intro props
  induction props with
  | nil => rfl
  | cons p rest ih =>
    rw [uaPropertiesLoop]
    exact sleepAfterCalls_append _ _
      (sleepAfterCalls_uaPropertyStep api accountId (p.getS "id")) ih

/-- The account loop of the UA property level settings paces all its calls. -/
theorem sleepAfterCalls_uaAccountsLoop (api : MgmtApi) :
    ∀ accounts, sleepAfterCalls (uaAccountsLoop api accounts).1 = true := by
  intro accounts
  induction accounts with
  | nil => rfl
  | cons a rest ih =>
    rw [uaAccountsLoop]
    by_cases hw : (a.getObjs "webProperties").isEmpty
    · rw [if_pos hw]
      exact sleepAfterCalls_append _ _ rfl ih
    · rw [if_neg hw]
      exact sleepAfterCalls_append _ _
        (sleepAfterCalls_uaPropertiesLoop api (a.getS "id") (a.getObjs "webProperties")) ih

/-- The filters loop paces all its calls. -/
theorem sleepAfterCalls_filtersLoop (api : MgmtApi) :
    ∀ accounts, sleepAfterCalls (filtersLoop api accounts).1 = true := by
  intro accounts
  induction accounts with
  | nil => rfl
  | cons a rest ih =>
    rw [filtersLoop]
    simp [sleepAfterCalls, ih]

/-- The filter links loop paces all its calls. -/
theorem sleepAfterCalls_filterLinksLoop (api : MgmtApi) :
    ∀ accounts, sleepAfterCalls (filterLinksLoop api accounts).1 = true := by
  intro accounts
  induction accounts with
  | nil => rfl
  | cons a rest ih =>
    rw [filterLinksLoop]
    simp [sleepAfterCalls, ih]

/-- The property summary body never touches the properties collection. -/
theorem processPropertySummary_properties_nil (api : AdminApi)
    (ps : PropertySummary) (d : Entities)
    (h : processPropertySummary api ps = Except.ok d) : d.properties = [] := by
  obtain ⟨_, _, _, _, _, _, _, _, _, _, _, _, _, _, _, _, _, _, _, _, _, _, _, _, _, hd⟩ :=
    processPropertySummary_inv api ps d h
  subst hd
  rfl

/-- The property summary loop never touches the properties collection. -/
theorem psLoop_properties_nil (api : AdminApi) :
    ∀ pss d, psLoop api pss = Except.ok d → d.properties = [] := by
  intro pss
  induction pss with
  | nil =>
    intro d h
    simp [psLoop, expure_eq] at h
    subst h
    rfl
  | cons ps rest ih =>
    intro d h
    rw [psLoop] at h
    cases h1 : processPropertySummary api ps with
    | error e => rw [h1] at h; simp [exbind_error] at h
    | ok d1 =>
    rw [h1] at h; simp only [exbind_ok] at h
    cases h2 : psLoop api rest with
    | error e => rw [h2] at h; simp [exbind_error] at h
    | ok d2 =>
    rw [h2] at h; simp only [exbind_ok, expure_eq, Except.ok.injEq] at h
    subst h
    show d1.properties ++ d2.properties = []
    rw [processPropertySummary_properties_nil api ps d1 h1, ih d2 h2]
    rfl

/-- A delta that only fills summaries and accounts satisfies every sub-record
predicate. -/
theorem allSubRecords_base (l1 l2 : List Rec) (P : Rec → Prop) :
    allSubRecords { Entities.empty with summaries := l1, accounts := l2 } P := by
  refine ⟨?_, ?_, ?_, ?_, ?_, ?_, ?_, ?_, ?_⟩ <;> · intro r hr; simp [Entities.empty] at hr

/-- The pointwise concatenation of the per-property-summary deltas of a
traversal segment, in traversal order. -/
def concatBlocks (pairs : List (PropertySummary × Entities)) : Entities :=
  pairs.foldr (fun pr acc => Entities.app pr.2 acc) Entities.empty

/-- Equality of the nine below-property collections (the three data stream
lists, measurement protocol secrets, conversion events, custom dimensions,
custom metrics, Google Ads links, Firebase links). -/
def subListsEq (a b : Entities) : Prop :=
  a.android_app_data_streams = b.android_app_data_streams ∧
  a.ios_app_data_streams = b.ios_app_data_streams ∧
  a.web_data_streams = b.web_data_streams ∧
  a.measurement_protocol_secrets = b.measurement_protocol_secrets ∧
  a.conversion_events = b.conversion_events ∧
  a.custom_dimensions = b.custom_dimensions ∧
  a.custom_metrics = b.custom_metrics ∧
  a.google_ads_links = b.google_ads_links ∧
  a.firebase_links = b.firebase_links

/-- One block prepended to a blocks concatenation. -/
theorem concatBlocks_cons (pr : PropertySummary × Entities)
    (pairs : List (PropertySummary × Entities)) :
    concatBlocks (pr :: pairs) = Entities.app pr.2 (concatBlocks pairs) := rfl

/-- Blocks concatenation splits over list append. -/
theorem concatBlocks_append :
    ∀ p1 p2, concatBlocks (p1 ++ p2) =
      Entities.app (concatBlocks p1) (concatBlocks p2) := by
  intro p1 p2
  induction p1 with
  | nil => simp [concatBlocks, Entities.empty_app]
  | cons pr rest ih =>
    rw [List.cons_append, concatBlocks_cons, concatBlocks_cons, ih,
        Entities.app_assoc]

/-- The property summary loop emits exactly one delta block per property
summary, in order: the delta is the pointwise concatenation of the blocks
and each block comes from processing its own summary. -/
theorem psLoop_blocks (api : AdminApi) :
    ∀ pss d, psLoop api pss = Except.ok d →
      ∃ pairs : List (PropertySummary × Entities),
        pairs.map Prod.fst = pss ∧
        (∀ pr ∈ pairs, processPropertySummary api pr.1 = Except.ok pr.2) ∧
        d = concatBlocks pairs := by
  intro pss
  induction pss with
  | nil =>
    intro d h
    simp [psLoop, expure_eq] at h
    subst h
    exact ⟨[], rfl, by simp, rfl⟩
  | cons ps rest ih =>
    intro d h
    rw [psLoop] at h
    cases h1 : processPropertySummary api ps with
    | error e => rw [h1] at h; simp [exbind_error] at h
    | ok d1 =>
    rw [h1] at h; simp only [exbind_ok] at h
    cases h2 : psLoop api rest with
    | error e => rw [h2] at h; simp [exbind_error] at h
    | ok d2 =>
    rw [h2] at h; simp only [exbind_ok, expure_eq, Except.ok.injEq] at h
    subst h
    obtain ⟨pairs, hfst, hok, hcb⟩ := ih d2 h2
    refine ⟨(ps, d1) :: pairs, by simp [hfst], ?_, ?_⟩
    · intro pr hpr
      rcases List.mem_cons.mp hpr with hpr | hpr
      · subst hpr; exact h1
      · exact hok pr hpr
    · rw [concatBlocks_cons, ← hcb]

/-- The below-property collections of the account summaries loop decompose
into the per-property-summary blocks of all walked account summaries, in
traversal order. -/
theorem summariesLoop_blocks (api : AdminApi) :
    ∀ ss delta, summariesLoop api ss = Except.ok delta →
      ∃ pairs : List (PropertySummary × Entities),
        pairs.map Prod.fst = ss.flatMap (fun s => s.property_summaries) ∧
        (∀ pr ∈ pairs, processPropertySummary api pr.1 = Except.ok pr.2) ∧
        subListsEq delta (concatBlocks pairs) := by
  intro ss
  induction ss with
  | nil =>
    intro delta h
    simp [summariesLoop, expure_eq] at h
    subst h
    exact ⟨[], rfl, by simp, rfl, rfl, rfl, rfl, rfl, rfl, rfl, rfl, rfl⟩
  | cons s rest ih =>
    intro delta h
    rw [summariesLoop] at h
    cases h1 : processAccountSummary api s with
    | error e => rw [h1] at h; simp [exbind_error] at h
    | ok d1 =>
    rw [h1] at h; simp only [exbind_ok] at h
    cases h2 : summariesLoop api rest with
    | error e => rw [h2] at h; simp [exbind_error] at h
    | ok d2 =>
    rw [h2] at h; simp only [exbind_ok, expure_eq, Except.ok.injEq] at h
    subst h
    obtain ⟨props, precs, sub, hp, hpl, hps, hd1⟩ := processAccountSummary_inv api s d1 h1
    obtain ⟨ps_pairs, hfst1, hok1, hcb1⟩ := psLoop_blocks api s.property_summaries sub hps
    obtain ⟨r_pairs, hfst2, hok2, hsub2⟩ := ih d2 h2
    refine ⟨ps_pairs ++ r_pairs, ?_, ?_, ?_⟩
    · simp [List.map_append, hfst1, hfst2]
    · intro pr hpr
      rcases List.mem_append.mp hpr with hpr | hpr
      · exact hok1 pr hpr
      · exact hok2 pr hpr
    · subst hd1
      subst hcb1
      obtain ⟨q1, q2, q3, q4, q5, q6, q7, q8, q9⟩ := hsub2
      rw [concatBlocks_append]
      refine ⟨?_, ?_, ?_, ?_, ?_, ?_, ?_, ?_, ?_⟩ <;>
        simp [Entities.app, Entities.empty, q1, q2, q3, q4, q5, q6, q7, q8, q9]

/-- C2 (amended): in the GA4 traversal, every flattened record emitted below
the property level (the three data stream lists, measurement protocol
secrets, conversion events, custom dimensions, custom metrics, Google Ads
links, Firebase links) is stamped by its immediate parent: the nine
collections of a completed run decompose into consecutive per-property-
summary blocks in traversal order, the block of a property summary ps is
exactly what processing ps emitted, and every record in that block carries
property and property_display_name equal to ps's property and display_name.
The UA property-level records are raw API items and carry no such injected
fields (see the counterexample). -/
theorem ga4_subrecords_stamped_by_parent (api : AdminApi) (e : Entities)
    (h : list_ga4_entities api = Except.ok e) :
    ∃ (sums : List AccountSummary) (pairs : List (PropertySummary × Entities)),
      api.list_account_summaries = Except.ok sums ∧
      pairs.map Prod.fst = sums.flatMap (fun s => s.property_summaries) ∧
      (∀ pr ∈ pairs, processPropertySummary api pr.1 = Except.ok pr.2 ∧
        allSubRecords pr.2 (fun r => stamped r pr.1)) ∧
      subListsEq e (concatBlocks pairs) := by
  obtain ⟨sums, accs, delta, h1, h2, h3, he⟩ := list_ga4_entities_inv api e h
  obtain ⟨pairs, hfst, hok, hsub⟩ := summariesLoop_blocks api sums delta h3
  refine ⟨sums, pairs, h1, hfst, ?_, ?_⟩
  · intro pr hpr
    exact ⟨hok pr hpr,
           processPropertySummary_stamped api pr.1 pr.2 (hok pr hpr)⟩
  · subst he
    obtain ⟨q1, q2, q3, q4, q5, q6, q7, q8, q9⟩ := hsub
    refine ⟨?_, ?_, ?_, ?_, ?_, ?_, ?_, ?_, ?_⟩ <;>
      simp [Entities.app, Entities.empty, q1, q2, q3, q4, q5, q6, q7, q8, q9]

/-- C3 (amended): for one property summary the secrets collection is emitted
as the android block, then the iOS block, then the web block — the source
checks the variants in that order — and every secret record comes from
listing measurement protocol secrets with one of the emitted stream dicts of
the matching variant as parent, one record per returned secret. -/
theorem mps_variant_order (api : AdminApi) (ps : PropertySummary) (d : Entities)
    (h : processPropertySummary api ps = Except.ok d) :
    ∃ A I W, d.measurement_protocol_secrets = A ++ I ++ W ∧
      (∀ r ∈ A, stamped r ps ∧ secretFrom api ps "android app" d.android_app_data_streams r) ∧
      (∀ r ∈ I, stamped r ps ∧ secretFrom api ps "ios app" d.ios_app_data_streams r) ∧
      (∀ r ∈ W, stamped r ps ∧ secretFrom api ps "web" d.web_data_streams r) := by
  obtain ⟨androids, adicts, amps, ioses, idicts, imps, webs, wdicts, wmps,
          events, cds, cms, adsLinks, fbLinks,
          h1, h2, h3, h4, h5, h6, h7, h8, h9, h10, h11, hd⟩ :=
    processPropertySummary_inv api ps d h
  obtain ⟨-, ham⟩ := androidLoop_spec api ps androids adicts amps h2
  obtain ⟨-, him⟩ := iosLoop_spec api ps ioses idicts imps h4
  obtain ⟨-, hwm⟩ := webLoop_spec api ps webs wdicts wmps h6
  subst hd
  exact ⟨amps, imps, wmps, rfl, ham, him, hwm⟩

/-- C4 (amended): the enum-coded fields of a flattened property record
(service_level, industry_category, the google signals state and consent, the
event data retention) are stored as raw integer enum codes, and the JSON
serialization renders an enum code as its integer numeral, never a symbolic
name. -/
theorem enum_fields_stored_raw (api : AdminApi) (s : AccountSummary)
    (d : Entities) (h : processAccountSummary api s = Except.ok d) :
    (∀ r ∈ d.properties,
      ∃ (p : Ga4Property) (drs : DataRetentionSettings) (gss : GoogleSignalsSettings),
      Rec.lookup r "service_level" = some (Value.enumv p.service_level) ∧
      Rec.lookup r "industry_category" = some (Value.enumv p.industry_category) ∧
      Rec.lookup r "google_signals_settings" = some (Value.obj
        [("name", Value.str gss.name), ("state", Value.enumv gss.state),
         ("consent", Value.enumv gss.consent)]) ∧
      Rec.lookup r "data_sharing_settings" = some (Value.obj
        [("name", Value.str drs.name),
         ("event_data_retention", Value.enumv drs.event_data_retention),
         ("reset_user_data_on_new_activity",
          Value.bool drs.reset_user_data_on_new_activity)])) ∧
    (∀ n, jsonOfValue (Value.enumv n) = toString n) := by
  obtain ⟨props, precs, sub, hp, hpl, hps, hd⟩ := processAccountSummary_inv api s d h
  obtain ⟨-, hmem⟩ := propertiesLoop_spec api s.account props precs hpl
  have hsubnil : sub.properties = [] := psLoop_properties_nil api s.property_summaries sub hps
  constructor
  · intro r hr
    subst hd
    have : r ∈ precs ++ sub.properties := hr
    rw [hsubnil, List.append_nil] at this
    obtain ⟨p, _, drs, gss, _, _, hrec⟩ := hmem r this
    subst hrec
    exact ⟨p, drs, gss, rfl, rfl, rfl, rfl⟩
  · intro n
    rfl

/-- C6 (amended): for each account summary the traversal lists the account's
properties filtered by parent:account and enriches every flattened property
record with exactly two 1:1 settings sub-resources — the data retention
settings (stored under the key data_sharing_settings) and the google signals
settings; no attribution settings are fetched or stored. -/
theorem property_enrichment_two_settings (api : AdminApi) (s : AccountSummary)
    (d : Entities) (h : processAccountSummary api s = Except.ok d) :
    ∃ props, api.list_properties ("parent:" ++ s.account) = Except.ok props ∧
      d.properties.length = props.length ∧
      ∀ r ∈ d.properties,
        (∃ p ∈ props, ∃ drs gss,
          api.get_data_retention_settings (p.name ++ "/dataRetentionSettings") = Except.ok drs ∧
          api.get_google_signals_settings (p.name ++ "/googleSignalsSettings") = Except.ok gss ∧
          r = propertyRec p s.account drs gss) ∧
        Rec.lookup r "attribution_settings" = none := by
  obtain ⟨props, precs, sub, hp, hpl, hps, hd⟩ := processAccountSummary_inv api s d h
  obtain ⟨hlen, hmem⟩ := propertiesLoop_spec api s.account props precs hpl
  have hsubnil : sub.properties = [] := psLoop_properties_nil api s.property_summaries sub hps
  have hdp : d.properties = precs := by
    subst hd
    show precs ++ sub.properties = precs
    rw [hsubnil, List.append_nil]
  refine ⟨props, hp, by rw [hdp]; exact hlen, ?_⟩
  intro r hr
  rw [hdp] at hr
  obtain ⟨p, hpmem, drs, gss, hdrs, hgss, hrec⟩ := hmem r hr
  refine ⟨⟨p, hpmem, drs, gss, hdrs, hgss, hrec⟩, ?_⟩
  subst hrec
  rfl

/-- C1 (amended): an error raised while processing one account summary's
property-level sub-resources is not caught anywhere: it propagates out of
list_ga4_entities, so the remaining account summaries are never processed
and the run returns no collections at all. -/
theorem account_failure_aborts_run (api : AdminApi) (pre : List AccountSummary)
    (s : AccountSummary) (rest : List AccountSummary) (e : Err) (d : Entities)
    (accs : List Ga4Account)
    (hsums : api.list_account_summaries = Except.ok (pre ++ s :: rest))
    (haccs : api.list_accounts = Except.ok accs)
    (hpre : summariesLoop api pre = Except.ok d)
    (herr : processAccountSummary api s = Except.error e) :
    list_ga4_entities api = Except.error e := by
  rw [list_ga4_entities, hsums, exbind_ok, haccs, exbind_ok,
      summariesLoop_append api pre (s :: rest), hpre, exbind_ok,
      summariesLoop, herr, exbind_error, exbind_error, exbind_error]

/-- C5 (amended): the loader never inspects or logs the load job's
structured error list — a completed run emits no log lines at all and still
returns the string complete. -/
theorem loader_never_logs (mApi : MgmtApi) (aApi : AdminApi)
    (jobs : String → LoadJobResult) (lists : List (String × List Rec))
    (o : LoadOutcome) (res : String)
    (h : ga_settings_download mApi aApi jobs = Except.ok (lists, o, res)) :
    o.logs = [] ∧ res = "complete" := by
  obtain ⟨ga4, _, _, hload, hres⟩ := ga_settings_download_inv mApi aApi jobs lists o res h
  exact ⟨(loadLoop_spec jobs _ o hload).2.2, hres⟩

/-- C7: a completed run writes a staging file and invokes a load job exactly
for the entity types whose collections are non-empty, in insertion order. -/
theorem load_jobs_exactly_nonempty (mApi : MgmtApi) (aApi : AdminApi)
    (jobs : String → LoadJobResult) (lists : List (String × List Rec))
    (o : LoadOutcome) (res : String)
    (h : ga_settings_download mApi aApi jobs = Except.ok (lists, o, res)) :
    o.jobsRun = (lists.filter (fun kv => !kv.2.isEmpty)).map Prod.fst ∧
    o.files.map Prod.fst = (lists.filter (fun kv => !kv.2.isEmpty)).map Prod.fst := by
  obtain ⟨ga4, _, hl, hload, _⟩ := ga_settings_download_inv mApi aApi jobs lists o res h
  subst hl
  exact ⟨(loadLoop_spec jobs _ o hload).1, (loadLoop_spec jobs _ o hload).2.1⟩

/-- The ua_segments key never survives the non-empty filter of the load
loop: its collection is always the empty list. -/
theorem ua_segments_not_selected (mApi : MgmtApi) (ga4 : Entities) :
    "ua_segments" ∉
      (((downloadLists mApi ga4).filter (fun kv => !kv.2.isEmpty)).map Prod.fst) := by
  intro hmem
  simp only [List.mem_map, List.mem_filter] at hmem
  obtain ⟨⟨k, data⟩, ⟨hin, hp⟩, hk⟩ := hmem
  subst hk
  simp [downloadLists, get_ua_segments, Prod.ext_iff] at hin
  subst hin
  simp at hp

/-- C10: get_ua_segments returns None (its body has no return statement), so
the ua_segments collection of any completed run is the empty list and the
load loop never writes a staging file or invokes a load job for it. -/
theorem ua_segments_never_loaded (mApi : MgmtApi) (aApi : AdminApi)
    (jobs : String → LoadJobResult) (lists : List (String × List Rec))
    (o : LoadOutcome) (res : String)
    (h : ga_settings_download mApi aApi jobs = Except.ok (lists, o, res)) :
    (get_ua_segments mApi).2 = none ∧
    List.lookup "ua_segments" lists = some [] ∧
    "ua_segments" ∉ o.jobsRun ∧
    "ua_segments" ∉ o.files.map Prod.fst := by
  obtain ⟨ga4, _, hl, hload, _⟩ := ga_settings_download_inv mApi aApi jobs lists o res h
  subst hl
  obtain ⟨hjobs, hfiles, _⟩ := loadLoop_spec jobs _ o hload
  refine ⟨rfl, ?_, ?_, ?_⟩
  · simp [downloadLists, get_ua_segments, List.lookup]
  · rw [hjobs]; exact ua_segments_not_selected mApi ga4
  · rw [hfiles]; exact ua_segments_not_selected mApi ga4

/-- C8 (amended): the list calls of the view, filter, filter-link, segment
and property-level-settings retrievals are each immediately followed by the
fixed REQUEST_DELAY sleep before control returns, but the account-summaries
and goals list calls return without any sleep at all. -/
theorem ua_request_delay_pattern :
    (∀ api : MgmtApi, sleepAfterCalls (get_ua_views api).1 = true) ∧
    (∀ (api : MgmtApi) (accounts : List Rec),
      sleepAfterCalls (get_ua_filters api accounts).1 = true) ∧
    (∀ (api : MgmtApi) (accounts : List Rec),
      sleepAfterCalls (get_ua_filter_links api accounts).1 = true) ∧
    (∀ api : MgmtApi, sleepAfterCalls (get_ua_segments api).1 = true) ∧
    (∀ (api : MgmtApi) (accounts : List Rec),
      sleepAfterCalls (get_ua_property_level_settings api accounts).1 = true) ∧
    (∀ api : MgmtApi, hasSleep (get_ua_account_summaries api).1 = false) ∧
    (∀ api : MgmtApi, hasSleep (get_ua_goals api).1 = false) :=
  ⟨fun api => by simp [get_ua_views, sleepAfterCalls],
   fun api accounts => sleepAfterCalls_filtersLoop api accounts,
   fun api accounts => sleepAfterCalls_filterLinksLoop api accounts,
   fun api => by simp [get_ua_segments, sleepAfterCalls],
   fun api accounts => sleepAfterCalls_uaAccountsLoop api accounts,
   fun api => rfl,
   fun api => rfl⟩

/-- C9: in the property overview query the dv360_links subquery is joined on
google_ads_links.property_id, not on its own property_id — the one LEFT JOIN
whose ON clause equates the wrong subquery's key. -/
theorem dv360_join_uses_google_ads_key :
    ∃ j ∈ propertyOverviewJoins,
      j.sqAlias = "dv360_links" ∧ j.table = "ga4_dv360_links" ∧
      j.onLeft = "property_summaries.property" ∧
      j.onRight = "google_ads_links.property_id" ∧
      j.onRight ≠ "dv360_links.property_id" := by
  refine ⟨{ sqAlias := "dv360_links", table := "ga4_dv360_links",
            onLeft := "property_summaries.property",
            onRight := "google_ads_links.property_id" }, ?_, rfl, rfl, rfl, rfl, ?_⟩
  · simp [propertyOverviewJoins]
  · decide

/- ## Concrete environments used by witnesses and counterexamples -/

/-- A concrete property summary. -/
def psW : PropertySummary := { property := "properties/101", display_name := "Example Property" }

/-- A concrete account summary owning psW. -/
def sumW : AccountSummary :=
  { name := "accountSummaries/1", display_name := "Example Account",
    account := "accounts/1", property_summaries := [psW] }

/-- A concrete account. -/
def acctW : Ga4Account :=
  { name := "accounts/1", display_name := "Example Account", create_time := 5,
    update_time := 6, region_code := "US", deleted := false }

/-- A concrete property with enum codes 1 (industry) and 2 (service level,
the 360 tier code). -/
def propW : Ga4Property :=
  { name := "properties/101", create_time := 5, update_time := 6,
    parent := "accounts/1", display_name := "Example Property",
    industry_category := 1, time_zone := "America/Los_Angeles",
    currency_code := "USD", service_level := 2, delete_time := 0,
    expire_time := 0 }

/-- Concrete data retention settings (enum code 3). -/
def drsW : DataRetentionSettings :=
  { name := "properties/101/dataRetentionSettings", event_data_retention := 3,
    reset_user_data_on_new_activity := true }

/-- Concrete google signals settings (enum codes 1 and 2). -/
def gssW : GoogleSignalsSettings :=
  { name := "properties/101/googleSignalsSettings", state := 1, consent := 2 }

/-- A concrete android app data stream. -/
def andW : AndroidAppDataStream :=
  { name := "properties/101/androidAppDataStreams/11", firebase_app_id := "fb-and",
    create_time := 5, update_time := 6, package_name := "com.example.app",
    display_name := "Android Stream" }

/-- A concrete iOS app data stream. -/
def iosW : IosAppDataStream :=
  { name := "properties/101/iosAppDataStreams/12", firebase_app_id := "fb-ios",
    create_time := 5, update_time := 6, bundle_id := "com.example.ios",
    display_name := "iOS Stream" }

/-- A concrete web data stream. -/
def webW : WebDataStream :=
  { name := "properties/101/webDataStreams/13", firebase_app_id := "fb-web",
    create_time := 5, update_time := 6, measurement_id := "G-123",
    display_name := "Web Stream", default_uri := "https://example.com" }

/-- A concrete measurement protocol secret. -/
def mpsW : MeasurementProtocolSecret :=
  { name := "secrets/21", display_name := "Secret", secret_value := "s3cr3t" }

/-- A concrete conversion event. -/
def ceW : ConversionEvent :=
  { name := "properties/101/conversionEvents/31", event_name := "signup",
    create_time := 5, deletable := true, custom := true }

/-- A concrete custom dimension. -/
def cdGa4W : CustomDimension :=
  { name := "properties/101/customDimensions/41", parameter_name := "plan",
    display_name := "Plan", description := "plan tier", scope := 1,
    disallow_ads_personalization := false }

/-- A concrete custom metric. -/
def cmGa4W : CustomMetric :=
  { name := "properties/101/customMetrics/51", parameter_name := "credits",
    display_name := "Credits", description := "credits spent", scope := 1,
    measurement_unit := 2 }

/-- A concrete Google Ads link. -/
def adsW : GoogleAdsLink :=
  { name := "properties/101/googleAdsLinks/61", customer_id := "123-456-7890",
    can_manage_clients := false, ads_personalization_enabled := true,
    create_time := 5, update_time := 6, creator_email_address := "a@example.com" }

/-- A concrete Firebase link. -/
def fbW : FirebaseLink :=
  { name := "properties/101/firebaseLinks/71", project := "projects/example",
    create_time := 5 }

/-- An all-successful admin api with one resource of every kind. -/
def apiW : AdminApi :=
  { list_account_summaries := Except.ok [sumW]
    list_accounts := Except.ok [acctW]
    list_properties := fun _ => Except.ok [propW]
    get_data_retention_settings := fun _ => Except.ok drsW
    get_google_signals_settings := fun _ => Except.ok gssW
    list_android_app_data_streams := fun _ => Except.ok [andW]
    list_ios_app_data_streams := fun _ => Except.ok [iosW]
    list_web_data_streams := fun _ => Except.ok [webW]
    list_measurement_protocol_secrets := fun _ => Except.ok [mpsW]
    list_conversion_events := fun _ => Except.ok [ceW]
    list_custom_dimensions := fun _ => Except.ok [cdGa4W]
    list_custom_metrics := fun _ => Except.ok [cmGa4W]
    list_google_ads_links := fun _ => Except.ok [adsW]
    list_firebase_links := fun _ => Except.ok [fbW] }

/-- An admin api on which every call succeeds with an empty list. -/
def apiEmpty : AdminApi :=
  { list_account_summaries := Except.ok []
    list_accounts := Except.ok []
    list_properties := fun _ => Except.ok []
    get_data_retention_settings := fun _ => Except.ok drsW
    get_google_signals_settings := fun _ => Except.ok gssW
    list_android_app_data_streams := fun _ => Except.ok []
    list_ios_app_data_streams := fun _ => Except.ok []
    list_web_data_streams := fun _ => Except.ok []
    list_measurement_protocol_secrets := fun _ => Except.ok []
    list_conversion_events := fun _ => Except.ok []
    list_custom_dimensions := fun _ => Except.ok []
    list_custom_metrics := fun _ => Except.ok []
    list_google_ads_links := fun _ => Except.ok []
    list_firebase_links := fun _ => Except.ok [] }

/-- Extracts the entities of a successful traversal. -/
def okOrEmpty (x : Except Err Entities) : Entities :=
  match x with
  | Except.ok e => e
  | Except.error _ => Entities.empty

/-- The entities the traversal collects on apiW. -/
def entitiesW : Entities := okOrEmpty (list_ga4_entities apiW)

/-- The property summary of account A in the failing traversal. -/
def psA : PropertySummary := { property := "properties/201", display_name := "Prop A" }

/-- The property summary of account B in the failing traversal. -/
def psB : PropertySummary := { property := "properties/202", display_name := "Prop B" }

/-- Account summary A, whose sub-resource listing will raise. -/
def sumA : AccountSummary :=
  { name := "accountSummaries/1", display_name := "Account A",
    account := "accounts/1", property_summaries := [psA] }

/-- Account summary B, which would have produced records. -/
def sumB : AccountSummary :=
  { name := "accountSummaries/2", display_name := "Account B",
    account := "accounts/2", property_summaries := [psB] }

/-- An admin api where listing android streams of Prop A (account A) raises
a quota error while every call for account B succeeds with records. -/
def apiBad : AdminApi :=
  { list_account_summaries := Except.ok [sumA, sumB]
    list_accounts := Except.ok []
    list_properties := fun _ => Except.ok []
    get_data_retention_settings := fun _ => Except.ok drsW
    get_google_signals_settings := fun _ => Except.ok gssW
    list_android_app_data_streams := fun parent =>
      if parent == "properties/201" then Except.error "quota exceeded"
      else Except.ok []
    list_ios_app_data_streams := fun _ => Except.ok []
    list_web_data_streams := fun _ => Except.ok []
    list_measurement_protocol_secrets := fun _ => Except.ok []
    list_conversion_events := fun _ => Except.ok [ceW]
    list_custom_dimensions := fun _ => Except.ok []
    list_custom_metrics := fun _ => Except.ok []
    list_google_ads_links := fun _ => Except.ok []
    list_firebase_links := fun _ => Except.ok [] }

/-- A management api on which every list returns no items. -/
def mgmtEmpty : MgmtApi :=
  { accountSummariesItems := []
    goalsItems := []
    viewsItems := []
    filtersItems := fun _ => []
    filterLinksItems := fun _ => []
    segmentsItems := []
    audienceItems := fun _ _ => []
    adsLinkItems := fun _ _ => []
    cdItems := fun _ _ => []
    cmItems := fun _ _ => [] }

/-- A raw UA web property item. -/
def uaPropItem : Rec := [("id", Value.str "UA-12345-1")]

/-- A raw UA account summary item with one web property. -/
def uaAcctItem : Rec :=
  [("id", Value.str "12345"),
   ("webProperties", Value.arr [Value.obj uaPropItem])]

/-- A raw UA custom dimension item exactly as the Management API returns it:
it has no property or property_display_name field. -/
def uaCdItem : Rec :=
  [("id", Value.str "ga:dimension1"),
   ("webPropertyId", Value.str "UA-12345-1"),
   ("name", Value.str "Custom Dim 1")]

/-- A management api returning one account, one web property and one raw
custom dimension item. -/
def mgmtUa : MgmtApi :=
  { mgmtEmpty with
      accountSummariesItems := [uaAcctItem]
      cdItems := fun _ _ => [uaCdItem] }

/-- A raw UA goal item. -/
def uaGoalItem : Rec := [("id", Value.str "1"), ("name", Value.str "Goal 1")]

/-- A raw UA view item. -/
def uaViewItem : Rec := [("id", Value.str "2"), ("name", Value.str "All Web Site Data")]

/-- A management api with one goal and one view. -/
def mgmtGoalsViews : MgmtApi :=
  { mgmtEmpty with goalsItems := [uaGoalItem], viewsItems := [uaViewItem] }

/-- Load jobs that always complete cleanly. -/
def jobsOk : String → LoadJobResult := fun _ => { failed := false, errors := [] }

/-- Load jobs where the ua_goals job completes but reports a structured row
error list. -/
def jobsRowErrors : String → LoadJobResult := fun t =>
  if t == "ua_goals" then { failed := false, errors := ["row 3: missing field"] }
  else { failed := false, errors := [] }

/-- Extracts the triple returned by a successful download run. -/
def runOkOr (x : Except Err (List (String × List Rec) × LoadOutcome × String)) :
    List (String × List Rec) × LoadOutcome × String :=
  match x with
  | Except.ok y => y
  | Except.error _ => ([], {}, "")

/-- The completed run on the goals-and-views management api with row-error
jobs. -/
def runRowErrors : List (String × List Rec) × LoadOutcome × String :=
  runOkOr (ga_settings_download mgmtGoalsViews apiEmpty jobsRowErrors)

/-- The completed run on the goals-and-views management api with clean jobs. -/
def runClean : List (String × List Rec) × LoadOutcome × String :=
  runOkOr (ga_settings_download mgmtGoalsViews apiEmpty jobsOk)

/-- The completed run on the UA custom dimension management api. -/
def runUa : List (String × List Rec) × LoadOutcome × String :=
  runOkOr (ga_settings_download mgmtUa apiEmpty jobsOk)

/- ## Witnesses and counterexamples -/

/-- C1 counterexample: on apiBad the android stream listing for account A's
property raises; the traversal does not isolate the failure per account —
the whole run aborts with that error, although account B on its own would
have produced a conversion event record. -/
theorem ga4_isolation_cex :
    list_ga4_entities apiBad = Except.error "quota exceeded" ∧
    processAccountSummary apiBad sumB =
      Except.ok (okOrEmpty (processAccountSummary apiBad sumB)) ∧
    (okOrEmpty (processAccountSummary apiBad sumB)).conversion_events.length = 1 :=
  ⟨rfl, rfl, rfl⟩

/-- C1 witness: the amended theorem applied to apiBad, where account A is
the failing head of the summaries list. -/
theorem account_failure_aborts_run_witness :
    list_ga4_entities apiBad = Except.error "quota exceeded" :=
  account_failure_aborts_run apiBad [] sumA [sumB] "quota exceeded"
    Entities.empty [] rfl rfl rfl rfl

/-- C2 witness: the per-parent stamping theorem applied to the
all-successful apiW. -/
theorem ga4_stamped_by_parent_witness :
    ∃ (sums : List AccountSummary) (pairs : List (PropertySummary × Entities)),
      apiW.list_account_summaries = Except.ok sums ∧
      pairs.map Prod.fst = sums.flatMap (fun s => s.property_summaries) ∧
      (∀ pr ∈ pairs, processPropertySummary apiW pr.1 = Except.ok pr.2 ∧
        allSubRecords pr.2 (fun r => stamped r pr.1)) ∧
      subListsEq entitiesW (concatBlocks pairs) :=
  ga4_subrecords_stamped_by_parent apiW entitiesW rfl

/-- C2 counterexample: the completed run on mgmtUa stores the raw UA custom
dimension item in the ua_custom_dimensions collection; that record, emitted
below the property level, has neither a property nor a property_display_name
field. -/
theorem ua_unstamped_record_cex :
    List.lookup "ua_custom_dimensions" (runUa).1 = some [uaCdItem] ∧
    Rec.lookup uaCdItem "property" = none ∧
    Rec.lookup uaCdItem "property_display_name" = none :=
  ⟨rfl, rfl, rfl⟩

/-- The delta one property summary contributes on apiW. -/
def dPSW : Entities := okOrEmpty (processPropertySummary apiW psW)

/-- The delta one account summary contributes on apiW. -/
def dASW : Entities := okOrEmpty (processAccountSummary apiW sumW)

/-- The flattened property record of the apiW run. -/
def propRecW : Rec := entitiesW.properties.headD []

/-- C3 witness: the variant order theorem applied to apiW and psW. -/
theorem mps_variant_order_witness :
    ∃ A I W, dPSW.measurement_protocol_secrets = A ++ I ++ W ∧
      (∀ r ∈ A, stamped r psW ∧
        secretFrom apiW psW "android app" dPSW.android_app_data_streams r) ∧
      (∀ r ∈ I, stamped r psW ∧
        secretFrom apiW psW "ios app" dPSW.ios_app_data_streams r) ∧
      (∀ r ∈ W, stamped r psW ∧
        secretFrom apiW psW "web" dPSW.web_data_streams r) :=
  mps_variant_order apiW psW dPSW rfl

/-- The type tags of the secrets emitted for psW on apiW, in order. -/
def mpsTypesW : List String :=
  dPSW.measurement_protocol_secrets.map (fun r => r.getS "type")

/-- C3 counterexample: with one stream of each variant, each holding one
secret, the secrets are emitted android first, then iOS, then web — not in
the claimed web, android, iOS order. -/
theorem stream_variant_order_cex :
    mpsTypesW = ["android app", "ios app", "web"] ∧
    mpsTypesW ≠ ["web", "android app", "ios app"] :=
  ⟨rfl, by decide⟩

/-- C4 witness: the raw enum storage theorem applied to apiW and sumW. -/
theorem enum_fields_stored_raw_witness :
    (∀ r ∈ dASW.properties,
      ∃ (p : Ga4Property) (drs : DataRetentionSettings) (gss : GoogleSignalsSettings),
      Rec.lookup r "service_level" = some (Value.enumv p.service_level) ∧
      Rec.lookup r "industry_category" = some (Value.enumv p.industry_category) ∧
      Rec.lookup r "google_signals_settings" = some (Value.obj
        [("name", Value.str gss.name), ("state", Value.enumv gss.state),
         ("consent", Value.enumv gss.consent)]) ∧
      Rec.lookup r "data_sharing_settings" = some (Value.obj
        [("name", Value.str drs.name),
         ("event_data_retention", Value.enumv drs.event_data_retention),
         ("reset_user_data_on_new_activity",
          Value.bool drs.reset_user_data_on_new_activity)])) ∧
    (∀ n, jsonOfValue (Value.enumv n) = toString n) :=
  enum_fields_stored_raw apiW sumW dASW rfl

/-- C4 counterexample: the stored property record of the apiW run keeps the
raw enum codes 2 (service_level) and 1 (industry_category), and the JSON
serialization renders an enum code as a bare integer numeral — never a
symbolic name string. -/
theorem enum_raw_integer_cex :
    Rec.lookup propRecW "service_level" = some (Value.enumv 2) ∧
    Rec.lookup propRecW "industry_category" = some (Value.enumv 1) ∧
    jsonOfValue (Value.enumv 2) = "2" :=
  ⟨rfl, rfl, rfl⟩

/-- C5 witness: the no-logging theorem applied to the run whose ua_goals
load job reports a structured row error list. -/
theorem loader_never_logs_witness :
    (runRowErrors).2.1.logs = [] ∧ (runRowErrors).2.2 = "complete" :=
  loader_never_logs mgmtGoalsViews apiEmpty jobsRowErrors
    (runRowErrors).1 (runRowErrors).2.1 (runRowErrors).2.2 rfl

/-- C5 counterexample: the ua_goals job completes with a non-empty error
list; the run continues to load ua_views and returns complete, but nothing
whatsoever is logged — the loader never reads the error list. -/
theorem load_errors_unlogged_cex :
    (jobsRowErrors "ua_goals").errors = ["row 3: missing field"] ∧
    (jobsRowErrors "ua_goals").failed = false ∧
    (runRowErrors).2.1.jobsRun = ["ua_goals", "ua_views"] ∧
    (runRowErrors).2.1.logs = [] ∧
    (runRowErrors).2.2 = "complete" :=
  ⟨rfl, rfl, rfl, rfl, rfl⟩

/-- C6 witness: the two-settings enrichment theorem applied to apiW, sumW. -/
theorem property_enrichment_two_settings_witness :
    ∃ props, apiW.list_properties ("parent:" ++ sumW.account) = Except.ok props ∧
      dASW.properties.length = props.length ∧
      ∀ r ∈ dASW.properties,
        (∃ p ∈ props, ∃ drs gss,
          apiW.get_data_retention_settings (p.name ++ "/dataRetentionSettings") = Except.ok drs ∧
          apiW.get_google_signals_settings (p.name ++ "/googleSignalsSettings") = Except.ok gss ∧
          r = propertyRec p sumW.account drs gss) ∧
        Rec.lookup r "attribution_settings" = none :=
  property_enrichment_two_settings apiW sumW dASW rfl

/-- C6 counterexample: the flattened property record of the apiW run has no
attribution_settings entry — its keys are exactly the twelve property-level
fields plus the two fetched settings sub-objects. -/
theorem property_no_attribution_cex :
    Rec.lookup propRecW "attribution_settings" = none ∧
    propRecW.map Prod.fst =
      ["name", "create_time", "update_time", "parent", "display_name",
       "industry_category", "time_zone", "currency_code", "service_level",
       "delete_time", "expire_time", "account", "data_sharing_settings",
       "google_signals_settings"] :=
  ⟨rfl, rfl⟩

/-- C7 witness: the exact-load-set theorem applied to the clean run, whose
non-empty collections are ua_goals and ua_views. -/
theorem load_jobs_exactly_nonempty_witness :
    (runClean).2.1.jobsRun =
      ((runClean).1.filter (fun kv => !kv.2.isEmpty)).map Prod.fst ∧
    (runClean).2.1.files.map Prod.fst =
      ((runClean).1.filter (fun kv => !kv.2.isEmpty)).map Prod.fst :=
  load_jobs_exactly_nonempty mgmtGoalsViews apiEmpty jobsOk
    (runClean).1 (runClean).2.1 (runClean).2.2 rfl

/-- C8 counterexample: the account summaries retrieval performs its list
call and returns with no sleep at all (and the goals retrieval likewise), so
not every remote call is followed by the fixed delay. -/
theorem account_summaries_no_delay_cex :
    (get_ua_account_summaries mgmtEmpty).1 =
      [Event.call "management.accountSummaries.list"] ∧
    sleepAfterCalls (get_ua_account_summaries mgmtEmpty).1 = false ∧
    hasSleep (get_ua_account_summaries mgmtEmpty).1 = false ∧
    hasSleep (get_ua_goals mgmtEmpty).1 = false :=
  ⟨rfl, rfl, rfl, rfl⟩

/-- C10 witness: the segments theorem applied to the clean run. -/
theorem ua_segments_never_loaded_witness :
    (get_ua_segments mgmtGoalsViews).2 = none ∧
    List.lookup "ua_segments" (runClean).1 = some [] ∧
    "ua_segments" ∉ (runClean).2.1.jobsRun ∧
    "ua_segments" ∉ (runClean).2.1.files.map Prod.fst :=
  ua_segments_never_loaded mgmtGoalsViews apiEmpty jobsOk
    (runClean).1 (runClean).2.1 (runClean).2.2 rfl
